import Mathlib

/-
A shallow embedding of the MIM-Runbook content-generation core
(`src/servers/runbook-generator/src/runbook-generator.ts`) together with
theorems settling the specification's claims about it.

Conventions of the embedding:
* TypeScript strings become `String`; template-literal interpolation becomes
  string concatenation.
* Optional/undefined-able fields become `Option String`; JS truthiness tests
  on them go through `optTruthy`, JS `??` through `Option.getD`.
* The wall-clock read `new Date().toISOString()` in `generateRunbook` is made
  an explicit `now : String` parameter.
* The `addAction` closure over the mutable `actionCounter`/`actionItems` pair
  becomes explicit state (`ActionAcc`) threaded through the section builders.
-/

-- ============================================================
-- JS string primitives used by the generator
-- ============================================================

/-- JS `String.prototype.toLowerCase`, restricted to ASCII (every string the
generator lower-cases is ASCII): lower-case the characters pointwise. -/
def toLowerStr (s : String) : String := ⟨s.data.map Char.toLower⟩

/-- Prefix test on character lists (first argument is the pattern). -/
def listStartsWith : List Char → List Char → Bool
  | [], _ => true
  | _ :: _, [] => false
  | p :: ps, c :: cs => p == c && listStartsWith ps cs

/-- Substring-occurrence test on character lists (first argument is the pattern). -/
def listHasSub (pat : List Char) : List Char → Bool
  | [] => pat.isEmpty
  | c :: rest => listStartsWith pat (c :: rest) || listHasSub pat rest

/-- JS `String.prototype.includes`. -/
def strIncludes (s pat : String) : Bool := listHasSub pat.data s.data

/-- Worker for `replaceFirst`: replace the first occurrence of `pat` by `repl`. -/
def replaceFirstAux (pat repl : List Char) : List Char → List Char
  | [] => if pat.isEmpty then repl else []
  | c :: rest =>
    if listStartsWith pat (c :: rest) then repl ++ (c :: rest).drop pat.length
    else c :: replaceFirstAux pat repl rest

/-- JS `String.prototype.replace` with a plain (non-global) pattern such as
`/inc/`: only the first occurrence is replaced. -/
def replaceFirst (s pat repl : String) : String :=
  ⟨replaceFirstAux pat.data repl.data s.data⟩

/-- The regex replace `/[^a-z0-9]/g → ""`: keep only `a`-`z` and `0`-`9`. -/
def stripNonAlnum (s : String) : String :=
  ⟨s.data.filter (fun c => (97 ≤ c.toNat && c.toNat ≤ 122) || (48 ≤ c.toNat && c.toNat ≤ 57))⟩

/-- JS `String(n).padStart(3, "0")`. -/
def pad3 (n : Nat) : String :=
  ⟨List.replicate (3 - (toString n).length) '0'⟩ ++ toString n

/-- JS truthiness of an optional string: `undefined` and `""` are falsy. -/
def optTruthy : Option String → Bool
  | none => false
  | some s => s != ""

/-- JS truthiness of a string: `""` is falsy. -/
def strTruthy (s : String) : Bool := s != ""

/-- JS `a || b` on strings: `b` when `a` is empty. -/
def strOr (a b : String) : String := if a == "" then b else a

-- ============================================================
-- Data model (`types.ts`)
-- ============================================================

/-- The `Incident` record of `types.ts` — the output type of the zod
`IncidentSchema`, which is what the generator receives. Schema fields marked
`.optional()` with no default (`region`, `detected_at`) become `Option String`;
fields with `.optional().default(...)` (`change_related`, `related_incident`,
`resolution_notes`, `close_code`) are present after parsing and stay plain;
everything else, `short_description` and `description` included, is a required
`z.string()`. -/
structure Incident where
  number : String
  title : String
  severity : String
  priority : String
  state : String
  category : String
  subcategory : String
  affected_service : String
  affected_ci : String
  environment : String
  region : Option String
  business_impact : String
  opened_at : String
  detected_at : Option String
  assigned_to : String
  assignment_group : String
  caller_id : String
  short_description : String
  description : String
  change_related : Bool
  related_incident : String
  resolution_notes : String
  close_code : String
deriving Repr, DecidableEq

/-- The escalation level of `types.ts`' `StakeholderSchema`:
`z.number().min(1).max(3)`, i.e. a number bounded between 1 and 3 (1 =
immediate notify, 2 = T+30, 3 = T+60+). Modelled over the naturals, which
makes the carrier exactly \x7b1, 2, 3\x7d — the three tiers the generator's
`=== 1 / === 2 / === 3` comparisons assume. -/
abbrev EscalationLevel : Type := { n : Nat // 1 ≤ n ∧ n ≤ 3 }

/-- The `Stakeholder` record of `types.ts` — the output type of the zod
`StakeholderSchema`. `bridge_url`/`bridge_phone` are `.optional()` with no
default, hence `Option String`; `notify_immediately` has `.default(false)` and
is present after parsing; `escalation_level` carries the schema's 1..3 bound. -/
structure Stakeholder where
  name : String
  role : String
  title : String
  team : String
  email : String
  phone : String
  slack : String
  escalation_level : EscalationLevel
  notify_immediately : Bool
  bridge_url : Option String
  bridge_phone : Option String
deriving DecidableEq

/-- The `VendorEscalation` record of `types.ts` (`VendorEscalationSchema`):
five required strings. -/
structure VendorEscalation where
  vendor : String
  account_number : String
  support_url : String
  phone : String
  severity_mapping : String
deriving Repr, DecidableEq

/-- Alert severities used by `alert_box` blocks. -/
inductive AlertLevel where
  | info
  | warning
  | critical
deriving Repr, DecidableEq

/-- One of the six per-phase email templates (`EmailTemplate` in `types.ts`;
the `colorBand` union of five color names is modelled as a string). -/
structure EmailTemplate where
  phase : String
  timing : String
  «to» : List String
  cc : List String
  subject : String
  body : String
  colorBand : String
deriving Repr, DecidableEq

/-- The tagged content-block union (`RunbookBlock` in `types.ts`); each TS
object literal `\x7b type: "...", ... \x7d` becomes the constructor of the same
name applied to the fields that block kind carries. -/
inductive RunbookBlock where
  | heading (level : Nat) (text : String)
  | paragraph (text : String)
  | numbered_step (stepNumber : Nat) (text : String)
  | checklist_item (text : String)
  | bullet (items : List String)
  | command (text : String)
  | table (rows : List (List String))
  | decision_tree (condition : String) (branches : List (String × String))
  | alert_box (alertLevel : AlertLevel) (text : String)
  | email_template (template : EmailTemplate)
deriving Repr, DecidableEq

/-- One runbook section: the ordinal, the fixed title, the ordered blocks. -/
structure RunbookSection where
  sectionNumber : Nat
  title : String
  blocks : List RunbookBlock
deriving Repr, DecidableEq

/-- One ledger row of the action tracker. -/
structure ActionItem where
  id : String
  phase : String
  action : String
  owner : String
  team : String
  priority : String
  status : String
  targetBy : String
  notes : String
deriving Repr, DecidableEq

/-- One ledger row of the escalation contact list. -/
structure EscalationEntry where
  id : String
  contactName : String
  role : String
  method : String
deriving Repr, DecidableEq

/-- The root artifact returned by `generateRunbook`. -/
structure RunbookOutput where
  incident : Incident
  stakeholders : List Stakeholder
  vendors : List VendorEscalation
  sections : List RunbookSection
  emailTemplates : List EmailTemplate
  actionItems : List ActionItem
  escalationEntries : List EscalationEntry
  generatedAt : String
  slackChannel : String
  zoomUrl : String
  incidentCommander : Option Stakeholder
  technicalLead : Option Stakeholder
  commsLead : Option Stakeholder
deriving DecidableEq

/-- The explicit state of the `addAction` closure: the next action counter and
the items pushed so far. -/
structure ActionAcc where
  counter : Nat
  items : List ActionItem
deriving Repr, DecidableEq

-- ============================================================
-- Helpers (bottom of runbook-generator.ts)
-- ============================================================

/-- The predicate of `findByRole`'s `find` callback: the stakeholder's role
contains the keyword, case-insensitively. -/
def roleMatches (s : Stakeholder) (roleKeyword : String) : Bool :=
  strIncludes (toLowerStr s.role) (toLowerStr roleKeyword)

/-- `findByRole`: first stakeholder whose role contains the keyword,
case-insensitively; `null` when none does. -/
def findByRole (stakeholders : List Stakeholder) (roleKeyword : String) : Option Stakeholder :=
  stakeholders.find? (fun s => roleMatches s roleKeyword)

/-- `getStakeholdersByLevel` (dead-called from Section 2 with an empty list). -/
def getStakeholdersByLevel (level : Nat) (immediateOnly : Bool)
    (stakeholders : List Stakeholder) : List Stakeholder :=
  stakeholders.filter (fun s => s.escalation_level.val == level && (!immediateOnly || s.notify_immediately))

/-- Models `formatTimestamp`. The source reparses the ISO string through
`new Date` and reformats it; calendar arithmetic is outside this embedding, so
the transformation is modelled as the identity on the already-ISO input (no
claim depends on the formatted text, which on failure is the input anyway). -/
def formatTimestamp (iso : String) : String := iso

/-- `addAction`: assign the next sequential id, push the item, bump the counter. -/
def addAction (acc : ActionAcc) (phase action owner team priority targetBy notes : String) :
    ActionAcc :=
  { counter := acc.counter + 1
    items := acc.items ++
      [{ id := "ACT-" ++ pad3 acc.counter
         phase := phase, action := action, owner := owner, team := team
         priority := priority, status := "Open", targetBy := targetBy, notes := notes }] }

/-- `buildEscalationEntries`: one entry per stakeholder, in list order. -/
def buildEscalationEntries (stakeholders : List Stakeholder) : List EscalationEntry :=
  stakeholders.enum.map (fun p =>
    { id := "ESC-" ++ pad3 (p.1 + 1)
      contactName := p.2.name
      role := p.2.role
      method := if p.2.notify_immediately then "Phone + Slack + Email" else "Slack + Email" })

-- ============================================================
-- Email Templates
-- ============================================================

/-- `buildEmailTemplates`: the six phase emails, recipients derived from the
stakeholders' escalation levels and notify-immediately flags. -/
def buildEmailTemplates (incident : Incident) (stakeholders : List Stakeholder)
    (ic commsLead : Option Stakeholder) (zoomUrl slackChannel : String) :
    List EmailTemplate :=
  let immediate := stakeholders.filter (fun s => s.notify_immediately || s.escalation_level.val == 1)
  let level2 := stakeholders.filter (fun s => s.escalation_level.val == 2)
  let level3 := stakeholders.filter (fun s => s.escalation_level.val == 3)
  let allStakeholders := stakeholders
  let toImmediate := immediate.map (·.email)
  let ccLevel2 := level2.map (·.email)
  let toLevel2 := level2.map (·.email)
  let ccLevel3 := level3.map (·.email)
  let toAll := allStakeholders.map (·.email)
  let detectedAt := incident.detected_at.getD incident.opened_at
  [ { phase := "Initial Incident Notification"
      timing := "T+0 (send immediately upon declaring Sev1)"
      «to» := toImmediate
      cc := ccLevel2
      subject := "[SEV1 — ACTIVE] " ++ incident.number ++ ": " ++ incident.affected_service ++
        " — " ++ incident.title
      colorBand := "red"
      body := "Team,\n\nWe are declaring a Severity 1 incident affecting " ++
        incident.affected_service ++ ".\n\nINCIDENT DETAILS\n================\n" ++
        "Incident Number : " ++ incident.number ++ "\n" ++
        "Severity        : " ++ incident.severity ++ "\n" ++
        "Priority        : " ++ incident.priority ++ "\n" ++
        "Affected Service: " ++ incident.affected_service ++ "\n" ++
        "Affected CI     : " ++ incident.affected_ci ++ "\n" ++
        "Environment     : " ++ incident.environment ++
        (if optTruthy incident.region then " (" ++ incident.region.getD "" ++ ")" else "") ++ "\n" ++
        "Detected At     : " ++ formatTimestamp detectedAt ++ " UTC\n" ++
        "Incident Commander: " ++ (ic.map (·.name)).getD "[INCIDENT COMMANDER]" ++ " — " ++
        (ic.map (·.phone)).getD "[PHONE]" ++
        "\n\nBUSINESS IMPACT\n===============\n" ++ incident.business_impact ++
        "\n\nCURRENT STATUS\n==============\nWe have declared a Sev1 and are mobilising the response team. Investigation is starting now." ++
        "\n\nWAR ROOM\n========\n" ++
        "Zoom Bridge : " ++ zoomUrl ++ "\n" ++
        "Slack Channel: " ++ slackChannel ++
        "\n\nAll Level 1 stakeholders, please join the bridge immediately.\n\n" ++
        "Next update: T+30 minutes or sooner if there is a significant development.\n\n-- " ++
        (commsLead.map (·.name)).getD "Incident Response Team" }
  , { phase := "War Room / Bridge Established"
      timing := "T+5 (once bridge call is open and team is assembling)"
      «to» := toImmediate
      cc := ccLevel2
      subject := "[SEV1 — WAR ROOM OPEN] " ++ incident.number ++ ": Bridge call is live — join now"
      colorBand := "red"
      body := "Team,\n\nThe incident bridge for " ++ incident.number ++
        " is now active.\n\nBRIDGE DETAILS\n==============\n" ++
        "Zoom URL  : " ++ zoomUrl ++ "\n" ++
        "Dial-In   : " ++ (ic.bind (·.bridge_phone)).getD "[DIAL-IN NUMBER + PIN]" ++ "\n" ++
        "Slack     : " ++ slackChannel ++
        "\n\nON THE CALL NOW\n===============\n" ++
        (ic.map (·.name)).getD "[INCIDENT COMMANDER]" ++ " — Incident Commander\n" ++
        "[NAMES OF ENGINEERS ON CALL — update as people join]" ++
        "\n\nCURRENT WORKING HYPOTHESIS\n===========================\n" ++
        "[UPDATE THIS — e.g., \"We believe the Oracle cluster primary node has crashed. Investigating logs now.\"]" ++
        "\n\nWHO WE NEED\n===========\n" ++
        "If you are a " ++ incident.assignment_group ++
        " engineer and are NOT on the call, please join immediately.\n\nNext update: T+30 minutes.\n\n-- " ++
        ((commsLead.map (·.name)) <|> (ic.map (·.name))).getD "Incident Response Team" }
  , { phase := "30-Minute Status Update"
      timing := "T+30 (and every 30 minutes thereafter until resolved)"
      «to» := toImmediate ++ toLevel2
      cc := ccLevel3
      subject := "[SEV1 — T+[ELAPSED]MIN UPDATE] " ++ incident.number ++
        ": Status Update — [CURRENT_STATUS_HEADLINE]"
      colorBand := "amber"
      body := "Team,\n\nStatus update for " ++ incident.number ++
        " as of [CURRENT_TIME] UTC (T+[ELAPSED] minutes)." ++
        "\n\nCURRENT STATUS\n==============\n" ++
        "[REPLACE WITH: \"Investigating\" / \"Root cause identified\" / \"Mitigation in progress\" / \"Monitoring after fix\"]" ++
        "\n\nACTIONS TAKEN SO FAR\n====================\n" ++
        "[TIMESTAMP] [ACTION TAKEN] — [NAME]\n[TIMESTAMP] [ACTION TAKEN] — [NAME]\n[ADD MORE ROWS AS NEEDED]" ++
        "\n\nCURRENT WORKING HYPOTHESIS\n===========================\n" ++
        "[REPLACE WITH YOUR CURRENT ROOT CAUSE HYPOTHESIS AND CONFIDENCE LEVEL]" ++
        "\n\nNEXT STEPS\n==========\n" ++
        "[ACTION 1] — Owner: [NAME], ETA: [TIME]\n[ACTION 2] — Owner: [NAME], ETA: [TIME]" ++
        "\n\nESTIMATED RESOLUTION\n====================\n" ++
        "[PROVIDE AN ETA OR STATE \"ETA UNKNOWN — next update in 30 minutes\"]" ++
        "\n\nBridge is still active: " ++ zoomUrl ++ "\nSlack: " ++ slackChannel ++ "\n\n-- " ++
        (commsLead.map (·.name)).getD "Incident Response Team" }
  , { phase := "Mitigation In Progress"
      timing := "T+[X] (send when a containment action is being executed)"
      «to» := toImmediate ++ toLevel2
      cc := ccLevel3
      subject := "[SEV1 — MITIGATION ACTIVE] " ++ incident.number ++
        ": Containment action underway for " ++ incident.affected_service
      colorBand := "amber"
      body := "Team,\n\nWe are now executing a containment action for " ++ incident.number ++
        ".\n\nCONTAINMENT ACTION\n==================\n" ++
        "Action         : [DESCRIBE THE ACTION, e.g., \"Failing over Oracle cluster to standby node\"]\n" ++
        "Executed By    : [NAME]\n" ++
        "Start Time     : [TIMESTAMP] UTC\n" ++
        "Expected Impact: [e.g., \"Brief 30-60 second connection interruption during failover\"]\n" ++
        "Expected ETA   : Service should begin recovering within [X] minutes" ++
        "\n\nRISK ASSESSMENT\n===============\n" ++
        "Risk Level  : [High / Medium / Low]\n" ++
        "Rollback Plan: [HOW TO ROLL BACK IF THIS ACTION MAKES THINGS WORSE]" ++
        "\n\nIF THIS ACTION FAILS\n====================\n" ++
        "Escalation to: " ++ strOr (String.intercalate ", " (level2.map (·.name))) "[LEVEL 2 CONTACTS]" ++ "\n" ++
        "Vendor support: [VENDOR_NAME] — open ticket at [SUPPORT_URL]" ++
        "\n\nWe will send a follow-up update within 15 minutes of execution.\n\n" ++
        "Bridge: " ++ zoomUrl ++ "\nSlack: " ++ slackChannel ++ "\n\n-- " ++
        ((commsLead.map (·.name)) <|> (ic.map (·.name))).getD "Incident Response Team" }
  , { phase := "Service Restored"
      timing := "T+[X] (send within 10 minutes of confirming service is restored)"
      «to» := toAll
      cc := []
      subject := "[SEV1 — RESOLVED ✅] " ++ incident.number ++ ": " ++
        incident.affected_service ++ " has been restored"
      colorBand := "green"
      body := "Team,\n\n" ++ incident.affected_service ++
        " has been restored.\n\nRESOLUTION SUMMARY\n==================\n" ++
        "Incident Number  : " ++ incident.number ++ "\n" ++
        "Affected Service : " ++ incident.affected_service ++ "\n" ++
        "Incident Opened  : " ++ formatTimestamp detectedAt ++ " UTC\n" ++
        "Service Restored : [RESOLVED_TIMESTAMP] UTC\n" ++
        "Total Duration   : [X hours Y minutes]" ++
        "\n\nROOT CAUSE (PRELIMINARY)\n========================\n" ++
        "[REPLACE WITH ROOT CAUSE SUMMARY — 2-3 sentences. E.g., \"An Oracle RAC primary node failure caused by shared pool memory exhaustion triggered by a runaway query introduced in release v2.4.1 (deployed at 13:45 UTC). Failover to the standby node restored service.\"]" ++
        "\n\nREMEDIATION APPLIED\n===================\n" ++
        "[ACTION 1 — e.g., \"Failover to Oracle standby node prod-oracle-02 at [TIME] UTC\"]\n" ++
        "[ACTION 2 — e.g., \"Runaway query identified and index added to prevent recurrence\"]" ++
        "\n\nMONITORING STATUS\n=================\n" ++
        "✅ Synthetic monitor: GREEN\n✅ Error rate: Within normal range\n✅ P99 latency: Normal\n✅ Customer-facing checkout: Functioning" ++
        "\n\nNEXT STEPS\n==========\n" ++
        "1. Post-Incident Review (PIR) will be scheduled within 5 business days\n" ++
        "2. Root cause analysis in progress\n" ++
        "3. Monitoring continues for the next 2 hours" ++
        "\n\nThank you to everyone who responded — especially " ++
        (ic.map (·.name)).getD "the Incident Commander" ++ " and " ++ incident.assignment_group ++
        ".\n\nFull runbook and action log attached.\n\n-- " ++
        ((commsLead.map (·.name)) <|> (ic.map (·.name))).getD "Incident Response Team" }
  , { phase := "Incident Closed + PIR Invitation"
      timing := "T+24h (within 24 hours of resolution, once PIR is scheduled)"
      «to» := toImmediate ++ toLevel2
      cc := ccLevel3
      subject := "[" ++ incident.number ++ " CLOSED] Post-Incident Review scheduled — " ++
        incident.title
      colorBand := "navy"
      body := "Team,\n\n" ++ incident.number ++
        " has been formally closed. The Post-Incident Review (PIR) has been scheduled." ++
        "\n\nINCIDENT SUMMARY\n================\n" ++
        "Incident : " ++ incident.number ++ "\n" ++
        "Service  : " ++ incident.affected_service ++ "\n" ++
        "Severity : " ++ incident.severity ++ "\n" ++
        "Duration : [X hours Y minutes]\n" ++
        "Customers Affected: [NUMBER / PERCENTAGE]\n" ++
        "Business Impact: " ++ incident.business_impact ++
        "\n\nPIR DETAILS\n===========\n" ++
        "Date    : [PIR_DATE]\n" ++
        "Time    : [PIR_TIME] UTC\n" ++
        "Duration: 60 minutes\n" ++
        "Link    : [ZOOM_OR_CALENDAR_LINK]" ++
        "\n\nAttendees (required):\n" ++
        (ic.map (·.name)).getD "[INCIDENT COMMANDER]" ++ " — Incident Commander\n" ++
        "[TECHNICAL LEAD NAME]\n[COMMS LEAD NAME]\n[ADD OTHER KEY RESPONDERS]" ++
        "\n\nPRE-READ MATERIALS\n==================\n" ++
        "Please review these before the PIR:\n" ++
        "1. Incident runbook: [LINK TO .docx]\n" ++
        "2. Action tracker / timeline: [LINK TO .xlsx]\n" ++
        "3. Preliminary root cause document: [LINK]" ++
        "\n\nPIR AGENDA\n==========\n" ++
        "1. Timeline walkthrough (15 min)\n" ++
        "2. Root cause deep dive (20 min)\n" ++
        "3. What went well (10 min)\n" ++
        "4. What to improve (10 min)\n" ++
        "5. Action item assignment (5 min)" ++
        "\n\nIf you cannot attend, please send your notes to " ++
        (ic.map (·.email)).getD "[IC_EMAIL]" ++ " before the meeting.\n\n-- " ++
        ((commsLead.map (·.name)) <|> (ic.map (·.name))).getD "Incident Response Team" }
  ]

-- ============================================================
-- Section 4 category step generators
-- ============================================================

/-- `getDatabaseDiagnosisSteps`. -/
def getDatabaseDiagnosisSteps (incident : Incident) : List RunbookBlock :=
  [ .numbered_step 1
      ("**Check cluster/node health.**\n\nSSH to primary node: `ssh admin@" ++
        incident.affected_ci ++ "`\nCheck cluster status:\n```\n# For Oracle RAC:\n" ++
        "srvctl status database -d $(srvctl config database | head -1)\n" ++
        "crsctl status resource -t | grep -E \"(ONLINE|OFFLINE|UNKNOWN)\"\n\n" ++
        "# For MySQL/Aurora:\nmysqlsh --uri admin@" ++ incident.affected_ci ++
        " -- cluster.status()\n\n# For PostgreSQL:\npsql -h " ++ incident.affected_ci ++
        " -U postgres -c \"SELECT pg_is_in_recovery();\"\n```\n\n" ++
        "✅ **Good**: All nodes ONLINE, primary responding\n" ++
        "❌ **Bad**: Nodes OFFLINE or UNKNOWN → proceed to Step 2\n" ++
        "⚡ **Decision**: If all nodes show ONLINE but DB is unresponsive → go to Step 3 (connection pool exhaustion)")
  , .numbered_step 2
      ("**Check database error logs (last 30 minutes).**\n\n```\n# Oracle alert log:\n" ++
        "tail -500 /u01/app/oracle/diag/rdbms/*/*/trace/alert_*.log\n" ++
        "grep -i \"ORA-\" /u01/app/oracle/diag/rdbms/*/*/trace/alert_*.log | tail -50\n\n" ++
        "# MySQL:\nmysqlsh -- dba.getCluster().status()\ntail -200 /var/log/mysql/error.log\n\n" ++
        "# PostgreSQL:\ngrep \"FATAL\\|ERROR\\|PANIC\" /var/log/postgresql/postgresql-*.log | tail -50\n```\n\n" ++
        "✅ **Good**: Only routine messages\n" ++
        "❌ **Bad**: ORA-04031 (shared pool), ORA-00060 (deadlocks), ORA-12170 (connection timeout) → document errors and go to Step 4")
  , .numbered_step 3
      ("**Check connection pool exhaustion.**\n\n```\n# Oracle — check active sessions:\n" ++
        "SELECT COUNT(*) FROM v$session WHERE status = \x27ACTIVE\x27;\n" ++
        "SELECT value FROM v$parameter WHERE name = \x27sessions\x27;\n\n" ++
        "# Check for blocking sessions:\n" ++
        "SELECT sid, serial#, username, blocking_session, seconds_in_wait, state, wait_class\n" ++
        "FROM v$session\nWHERE blocking_session IS NOT NULL;\n\n" ++
        "# Application side — check pool config:\n" ++
        "# Look for POOL_SIZE, MAX_CONNECTIONS, CONNECTION_TIMEOUT in app config\n```\n\n" ++
        "✅ **Good**: Active sessions < 80% of max sessions limit\n" ++
        "❌ **Bad**: Sessions at max, or blocking sessions detected → go to Step 6 (kill blocking sessions as mitigation)\n" ++
        "⚡ **Decision**: If connection pool is exhausted → go to Section 5, Step 3")
  , .numbered_step 4
      ("**Check replication lag (if applicable).**\n\n```\n# MySQL replication:\n" ++
        "SHOW SLAVE STATUS\\G\n# Look for: Seconds_Behind_Master (>60 = bad, >300 = critical)\n" ++
        "# And: Slave_IO_Running: Yes, Slave_SQL_Running: Yes\n\n" ++
        "# PostgreSQL streaming replication:\n" ++
        "SELECT client_addr, state, sent_lsn, write_lsn, flush_lsn, replay_lsn,\n" ++
        "  (sent_lsn - replay_lsn) AS replication_lag\nFROM pg_stat_replication;\n```\n\n" ++
        "✅ **Good**: Lag < 10 seconds, all replicas running\n" ++
        "❌ **Bad**: Lag > 60 seconds or replica stopped → note for root cause; may need to failover to another replica")
  , .numbered_step 5
      ("**Check disk, CPU, and memory on the DB host.**\n\n```\ntop -b -n 1 | head -20\n" ++
        "df -h | grep -E \"(Use%|/$)\"\niostat -x 1 3\nfree -h\n```\n\n" ++
        "✅ **Good**: CPU < 80%, Memory available > 20%, Disk < 85%, IO wait < 20%\n" ++
        "❌ **Bad**: Any threshold breached → resource exhaustion is a likely contributing factor")
  , .numbered_step 6
      ("**Check recent DDL/DML changes and deployments (last 4 hours).**\n\n" ++
        "Query audit log or release tracker:\n```\n# Oracle:\n" ++
        "SELECT username, timestamp, action_name, obj_name\nFROM dba_audit_trail\n" ++
        "WHERE timestamp > SYSDATE - (4/24)\nORDER BY timestamp DESC;\n```\n\n" ++
        "Check deployment pipeline for any releases in last 4 hours: [CHECK YOUR DEPLOYMENT TOOL]\n\n" ++
        "⚡ **Decision**: If a deployment occurred within 2 hours of incident detection → this is your primary hypothesis. Go to Section 5 for rollback options.")
  , .decision_tree "After completing all diagnosis steps, which best describes your findings?"
      [ ("DB nodes are offline / cluster split-brain", "Go to Section 5, Step 1: Cluster restart / failover")
      , ("Connection pool exhausted, DB nodes healthy", "Go to Section 5, Step 2: Connection pool flush and restart app tier")
      , ("Blocking sessions preventing progress", "Go to Section 5, Step 3: Kill blocking sessions")
      , ("Recent deployment suspected", "Go to Section 5, Step 4: Rollback deployment")
      , ("Disk / memory / CPU exhaustion", "Go to Section 5, Step 5: Resource remediation")
      , ("None of the above / unclear", "Escalate: page vendor support (see Section 6) and senior DBA now") ] ]

/-- `getNetworkDiagnosisSteps`. -/
def getNetworkDiagnosisSteps (incident : Incident) : List RunbookBlock :=
  [ .numbered_step 1
      ("**Confirm reachability from multiple vantage points.**\n\n```\n# From your workstation:\n" ++
        "ping -c 5 " ++ incident.affected_ci ++ "\ntraceroute " ++ incident.affected_ci ++
        "\nmtr --report " ++ incident.affected_ci ++ "\n\n# From another host in the same region:\n" ++
        "ssh jump-host \"ping -c 5 " ++ incident.affected_ci ++ "\"\n" ++
        "ssh jump-host \"curl -o /dev/null -s -w \x27%\x7bhttp_code\x7d\x27 https://" ++
        incident.affected_ci ++ "/health\"\n```\n\n" ++
        "✅ **Good**: Reachable from all vantage points, <10ms latency\n" ++
        "❌ **Bad**: Unreachable from some/all → packet loss indicates routing or firewall issue\n" ++
        "⚡ **Decision**: If reachable from internal but not external → check firewall/CDN (Step 3)")
  , .numbered_step 2
      ("**Check routing tables and BGP status.**\n\n```\n# Check routing:\nip route show\n" ++
        "netstat -rn\n\n# For BGP environments (check with network team):\n" ++
        "show ip bgp summary   # (on router/switch)\nshow ip route bgp\n\n# Check DNS resolution:\n" ++
        "dig " ++ incident.affected_ci ++ "\nnslookup " ++ incident.affected_ci ++ "\n```\n\n" ++
        "✅ **Good**: Correct routes present, BGP peers UP, DNS resolves correctly\n" ++
        "❌ **Bad**: Missing routes, BGP peer DOWN, DNS returns wrong IP → network team escalation required")
  , .numbered_step 3
      ("**Check firewall and security group rules.**\n\n" ++
        "Verify no rule was recently changed that blocks traffic to/from " ++ incident.affected_ci ++
        ":\n```\n# Linux firewall:\nsudo iptables -L -n -v | head -50\n" ++
        "sudo firewall-cmd --list-all\n\n# AWS Security Groups (if applicable):\n" ++
        "aws ec2 describe-security-groups --group-ids [SG_ID] --query \x27SecurityGroups[*].IpPermissions\x27\n```\n\n" ++
        "⚡ **Decision**: If a rule was changed in last 4 hours → revert the change (Section 5)")
  , .numbered_step 4
      ("**Check CDN and load balancer health.**\n\n" ++
        "Verify CDN edge nodes are serving traffic and not returning errors:\n```\n" ++
        "curl -I -H \"Host: " ++ incident.affected_service ++ "\" https://[CDN_EDGE_IP]/health\n" ++
        "curl -I https://" ++ incident.affected_service ++ "/health\n```\n\n" ++
        "Check load balancer health page in your cloud console or management tool. Look for:\n" ++
        "• Backend instance health checks failing\n• SSL certificate expiry (check expiry date)\n• Origin connection errors")
  , .decision_tree "What did network diagnosis reveal?"
      [ ("BGP peer down or routing change", "Section 5, Step 1: Revert routing change or failover to backup link")
      , ("Firewall rule blocking traffic", "Section 5, Step 2: Revert firewall rule change")
      , ("DNS misconfiguration", "Section 5, Step 3: Fix DNS record and force propagation")
      , ("CDN/Load balancer issue", "Section 5, Step 4: Bypass CDN or failover load balancer")
      , ("Unresolved — no root cause found", "Escalate to Senior Network Engineer and vendor (Section 6)") ] ]

/-- `getApplicationDiagnosisSteps`. -/
def getApplicationDiagnosisSteps (incident : Incident) : List RunbookBlock :=
  [ .numbered_step 1
      ("**Check error rate and latency in APM.**\n\n" ++
        "Open your APM dashboard (DataDog / New Relic / Dynatrace / CloudWatch) for \x27" ++
        incident.affected_service ++ "\x27.\n\nLook for:\n" ++
        "• Error rate > 1% (baseline) → is it now 10%? 50%? 100%?\n" ++
        "• P99 latency spike (when did it spike? correlates to deployment or upstream change?)\n" ++
        "• Specific endpoints/operations with highest error rates\n\n" ++
        "✅ **Good**: Error rate and latency within normal range\n" ++
        "❌ **Bad**: Error rate > 5% or P99 > 10x baseline → record exact error types and go to Step 2")
  , .numbered_step 2
      ("**Check application error logs.**\n\n```\n# Kubernetes pods:\n" ++
        "kubectl logs -n production deployment/" ++ incident.affected_ci ++
        " --since=30m | grep -i \"error\\|fatal\\|exception\" | tail -100\n" ++
        "kubectl get events -n production --sort-by=\x27.lastTimestamp\x27 | tail -30\n\n" ++
        "# Docker:\ndocker logs " ++ incident.affected_ci ++
        " --since 30m 2>&1 | grep -i \"error\\|fatal\" | tail -100\n\n" ++
        "# Traditional host:\nsudo journalctl -u " ++ incident.affected_ci ++
        " --since \"30 minutes ago\" | grep -i \"error\\|fatal\"\n" ++
        "tail -200 /var/log/" ++ incident.affected_ci ++ "/app.log | grep -i \"ERROR\\|FATAL\"\n```\n\n" ++
        "✅ **Good**: Normal log volume, no new error patterns\n" ++
        "❌ **Bad**: New error patterns (NullPointerException, ConnectionRefused, OutOfMemoryError) → record and go to Step 4")
  , .numbered_step 3
      ("**Check deployment history (last 4 hours).**\n\n" ++
        "Check your deployment pipeline (Jenkins / GitHub Actions / ArgoCD / Spinnaker) for:\n" ++
        "• Any deployment to " ++ incident.affected_ci ++ " or its dependencies in last 4 hours\n" ++
        "• Time of deployment vs. time of first alert (within 15 minutes = likely causal)\n" ++
        "• What changed: code diff, config change, feature flag change\n\n" ++
        "⚡ **Decision**: Deployment within 2 hours → go to Section 5, Step 1 for rollback")
  , .numbered_step 4
      ("**Check feature flags and configuration.**\n\n" ++
        "If your org uses a feature flag system (LaunchDarkly / Flagsmith / Unleash):\n" ++
        "• Check if any flag was recently toggled for " ++ incident.affected_service ++ "\n" ++
        "• Check for config changes in your config management system (Consul / etcd / AWS Parameter Store)\n\n" ++
        "```\n# Example: AWS Parameter Store change history\n" ++
        "aws ssm get-parameter-history --name /prod/" ++ incident.affected_ci ++
        "/config --max-items 5\n```\n\n" ++
        "✅ **Good**: No flag or config changes in last 4 hours\n" ++
        "❌ **Bad**: Flag/config changed recently → Section 5, Step 2: revert flag/config")
  , .decision_tree "Application diagnosis outcome?"
      [ ("Recent deployment identified", "Section 5, Step 1: Rollback deployment")
      , ("Feature flag / config change", "Section 5, Step 2: Revert flag or config")
      , ("Memory leak / OOM", "Section 5, Step 3: Restart pods/instances, then investigate heap dumps")
      , ("Upstream dependency failure (DB, API, cache)", "Investigate the upstream dependency: restart diagnosis loop for that CI")
      , ("No clear cause", "Escalate to senior engineer; consider blue/green failover (Section 5, Step 4)") ] ]

/-- `getCloudInfraDiagnosisSteps`. -/
def getCloudInfraDiagnosisSteps (incident : Incident) : List RunbookBlock :=
  [ .numbered_step 1
      ("**Check cloud provider status and AZ health.**\n\n" ++
        "Before assuming your config is broken, check if the cloud provider has an active incident:\n" ++
        "• AWS: https://health.aws.amazon.com/health/status\n" ++
        "• Azure: https://azure.status.microsoft/\n" ++
        "• GCP: https://status.cloud.google.com/\n\n" ++
        "If there is an active provider-side incident → note the incident ID, post to Slack, and move to Section 5, Step 5 (failover to backup region).\n\n" ++
        "✅ **Good**: All provider services operational in " ++ incident.region.getD "your region" ++ "\n" ++
        "❌ **Bad**: Provider incident active → escalate to vendor (Section 6) and prepare failover")
  , .numbered_step 2
      ("**Check compute instance / container health.**\n\n```\n# AWS EC2:\n" ++
        "aws ec2 describe-instance-status --instance-ids [INSTANCE_IDS] --include-all-instances\n" ++
        "aws ec2 get-console-output --instance-id [INSTANCE_ID]\n\n# Kubernetes:\n" ++
        "kubectl get nodes -o wide\nkubectl get pods -n production -o wide | grep -v \"Running\\|Completed\"\n" ++
        "kubectl describe node [UNHEALTHY_NODE]\n\n# Check autoscaling:\n" ++
        "aws autoscaling describe-auto-scaling-groups --auto-scaling-group-names [ASG_NAME]\n```\n\n" ++
        "✅ **Good**: All instances running/healthy, node Ready, autoscaling group healthy\n" ++
        "❌ **Bad**: Instances impaired, nodes NotReady → check instance logs and system events")
  , .numbered_step 3
      ("**Check IAM / permission changes.**\n\n" ++
        "A permission change can silently break services (S3 access denied, RDS connection refused):\n" ++
        "```\n# AWS CloudTrail (last 4 hours):\naws cloudtrail lookup-events \\\n" ++
        "  --start-time $(date -u -v-4H +%Y-%m-%dT%H:%M:%SZ) \\\n" ++
        "  --lookup-attributes AttributeKey=EventName,AttributeValue=PutRolePolicy\n\n" ++
        "# Also check: DeleteBucketPolicy, RevokeSecurityGroupIngress\n```\n\n" ++
        "⚡ **Decision**: If IAM change found near incident start time → revert the permission change")
  , .decision_tree "Cloud/Infra diagnosis outcome?"
      [ ("Provider-side AZ/region incident", "Section 5, Step 5: Failover to secondary region")
      , ("Compute instances impaired", "Section 5, Step 1: Replace/restart impaired instances")
      , ("IAM/permission change", "Section 5, Step 2: Revert IAM change via CloudTrail event")
      , ("Autoscaling stuck or misconfigured", "Section 5, Step 3: Manually scale out, fix ASG policy")
      , ("Unknown", "Escalate to cloud architect; open cloud provider P1 case (Section 6)") ] ]

/-- `getSecurityDiagnosisSteps`. -/
def getSecurityDiagnosisSteps (incident : Incident) : List RunbookBlock :=
  [ .numbered_step 1
      ("**Check SIEM for correlated alerts.**\n\n" ++
        "Open your SIEM (Splunk / QRadar / Sentinel / Elastic SIEM) and run:\n```\n" ++
        "index=security host=" ++ incident.affected_ci ++
        " earliest=-30m | stats count by source, severity\n```\n\nLook for:\n" ++
        "• Authentication failures spike\n" ++
        "• Lateral movement indicators (unusual logins across multiple hosts)\n" ++
        "• Data exfiltration indicators (large outbound transfers)\n" ++
        "• Malware signatures or C2 beaconing\n\n" ++
        "✅ **Good**: No correlated security alerts\n" ++
        "❌ **Bad**: Multiple security alerts firing simultaneously → this is likely a coordinated attack or breach")
  , .numbered_step 2
      ("**Check authentication logs for anomalies.**\n\n```\n# Linux auth log:\n" ++
        "grep -i \"failed\\|invalid\\|breach\" /var/log/auth.log | tail -100\n" ++
        "grep -i \"accepted\\|opened\" /var/log/auth.log | awk \x27\x7bprint $9\x7d\x27 | sort | uniq -c | sort -rn | head -20\n\n" ++
        "# Windows Event Log (Security):\n" ++
        "Get-WinEvent -LogName Security -MaxEvents 100 | Where \x7b$_.Id -in @(4625,4648,4672,4720)\x7d | Format-List\n```\n\n" ++
        "⚠️ **IMPORTANT**: If you suspect an active breach, do NOT power off affected systems — this destroys forensic evidence. Isolate from network instead.")
  , .numbered_step 3
      ("**Check DLP (Data Loss Prevention) alerts.**\n\n" ++
        "Verify if any sensitive data may have been exfiltrated:\n" ++
        "• Check DLP console for alerts in last 24 hours\n" ++
        "• Look for large transfers to external IPs\n" ++
        "• Check firewall logs for unusual outbound connections\n\n```\n" ++
        "netstat -an | grep ESTABLISHED | grep -v \"127.0.0.1\\|10.\\|192.168.\\|172.\" | head -20\n```")
  , .alert_box .critical
      "SECURITY INCIDENT HANDLING: If you confirm a breach or data exfiltration — STOP. Escalate immediately to the CISO and Legal team BEFORE taking any containment action. Containment may need to be coordinated with law enforcement." ]

/-- `getGenericDiagnosisSteps`. -/
def getGenericDiagnosisSteps (incident : Incident) : List RunbookBlock :=
  [ .numbered_step 1
      ("**Check primary health endpoint.**\n\n```\ncurl -v -m 10 https://" ++
        incident.affected_ci ++ "/health\ncurl -v -m 10 https://" ++ incident.affected_ci ++
        "/status\nping -c 5 " ++ incident.affected_ci ++ "\n```\n\n" ++
        "✅ **Good**: 200 OK response, ping responding\n" ++
        "❌ **Bad**: Timeout, 5xx error, no route to host → proceed to Step 2")
  , .numbered_step 2
      ("**Check system logs for errors (last 30 minutes).**\n\n```\n" ++
        "sudo journalctl -u " ++ incident.affected_ci ++
        " --since \"30 minutes ago\" | grep -i \"error\\|fatal\\|critical\"\n" ++
        "tail -200 /var/log/syslog | grep -i \"error\\|fail\\|critical\"\n```\n\n" ++
        "✅ **Good**: No new error patterns\n" ++
        "❌ **Bad**: New errors → document them verbatim; search for known fixes")
  , .numbered_step 3
      ("**Check system resources.**\n\n```\ntop -b -n 1 | head -20\ndf -h\nfree -h\n" ++
        "netstat -s | grep -i \"failed\\|retransmit\\|error\"\n```\n\n" ++
        "✅ **Good**: CPU < 80%, Memory available, Disk < 85%\n" ++
        "❌ **Bad**: Resource exhaustion → immediate escalation required")
  , .numbered_step 4
      ("**Check recent deployments and configuration changes.**\n\n" ++
        "Query your deployment tool and change management system for changes to \x27" ++
        incident.affected_ci ++ "\x27 in the last 4 hours.\n\n" ++
        "⚡ **Decision**: If a change was made → rollback is the fastest path to service restoration") ]

/-- The category dispatch inlined in `buildSection4` (lines 278-290), lifted
out as a function of the category string: case-insensitive substring match in
source order. -/
def diagnosisStepsForCategory (categoryRaw : String) (incident : Incident) : List RunbookBlock :=
  let category := toLowerStr categoryRaw
  if strIncludes category "database" then getDatabaseDiagnosisSteps incident
  else if strIncludes category "network" then getNetworkDiagnosisSteps incident
  else if strIncludes category "application" then getApplicationDiagnosisSteps incident
  else if strIncludes category "cloud" || strIncludes category "infra" then
    getCloudInfraDiagnosisSteps incident
  else if strIncludes category "security" then getSecurityDiagnosisSteps incident
  else getGenericDiagnosisSteps incident

-- ============================================================
-- Section 5 category step generators
-- ============================================================

/-- `getDatabaseContainmentSteps`. -/
def getDatabaseContainmentSteps (incident : Incident) : List RunbookBlock :=
  [ .numbered_step 1
      ("**Option A: Failover to standby/replica (FASTEST — preferred first action).**\n\n" ++
        "⚠️ CAB required if this is a planned-change environment.\n\n```\n" ++
        "# Oracle Data Guard failover:\ndgmgrl sys/[PASSWORD]@" ++ incident.affected_ci ++
        "\nFAILOVER TO [STANDBY_DB_NAME];\n\n# MySQL MHA failover:\n" ++
        "masterha_master_switch --conf=/etc/mha/app.conf --master_state=dead --orig_master_is_new_slave\n\n" ++
        "# AWS RDS Failover:\naws rds failover-db-cluster --db-cluster-identifier [CLUSTER_ID]\n```\n\n" ++
        "**Rollback**: If standby is worse, re-failover back: `SWITCHOVER TO [PRIMARY_DB];`\n\n" ++
        "Monitor: Check application error rates within 5 minutes of failover.")
  , .numbered_step 2
      ("**Option B: Restart connection pool (if pool exhaustion is the cause).**\n\n```\n" ++
        "# Restart application connection pool (varies by tech stack):\n# Spring Boot:\n" ++
        "curl -X POST https://[APP_HOST]/actuator/loggers/com.zaxxer.hikari -d \x27\x7b\"configuredLevel\":\"DEBUG\"\x7d\x27\n" ++
        "# Direct kill: kill application processes and let them restart\n" ++
        "systemctl restart " ++ incident.affected_ci ++ "-app\n\n# AWS RDS Proxy (if used):\n" ++
        "aws rds failover-db-cluster --db-cluster-identifier [CLUSTER]\n```\n\n" ++
        "**Monitor**: After restart, watch connection count in DB metrics dashboard.")
  , .numbered_step 3
      ("**Option C: Kill blocking sessions.**\n\n```\n-- Oracle: Find and kill blocking sessions:\n" ++
        "SELECT \x27ALTER SYSTEM KILL SESSION \x27\x27\x27 || sid || \x27,\x27 || serial# || \x27\x27\x27 IMMEDIATE;\x27\n" ++
        "FROM v$session\nWHERE blocking_session IS NOT NULL;\n" ++
        "-- Execute the generated statements above after reviewing them\n\n" ++
        "-- MySQL: Kill blocking connections\n" ++
        "SELECT CONCAT(\x27KILL \x27, id, \x27;\x27) FROM information_schema.processlist\n" ++
        "WHERE time > 300 AND command != \x27Sleep\x27\nORDER BY time DESC LIMIT 10;\n```\n\n" ++
        "⚠️ **Review each session before killing** — some long-running transactions may be legitimate batch jobs.")
  , .numbered_step 4
      ("**Option D: Rollback a recent deployment (if deployment is suspected).**\n\n" ++
        "Get the last known-good deployment tag from your pipeline:\n```\n# Kubernetes:\n" ++
        "kubectl rollout undo deployment/" ++ incident.affected_ci ++ " -n production\n" ++
        "kubectl rollout status deployment/" ++ incident.affected_ci ++ " -n production\n\n" ++
        "# AWS CodeDeploy:\naws deploy create-deployment \\\n  --application-name [APP_NAME] \\\n" ++
        "  --deployment-group-name [GROUP] \\\n  --deployment-config-name CodeDeployDefault.AllAtOnce \\\n" ++
        "  --revision revisionType=GitHub,gitHubLocation=\x7brepository=[REPO],commitId=[LAST_GOOD_COMMIT]\x7d\n```") ]

/-- `getApplicationContainmentSteps`. -/
def getApplicationContainmentSteps (incident : Incident) : List RunbookBlock :=
  [ .numbered_step 1
      ("**Rollback deployment to last known-good version.**\n\n⚠️ CAB required in production.\n\n```\n" ++
        "# Kubernetes:\nkubectl rollout undo deployment/" ++ incident.affected_ci ++ " -n production\n" ++
        "kubectl rollout status deployment/" ++ incident.affected_ci ++ " -n production --timeout=5m\n\n" ++
        "# Docker Swarm:\ndocker service update --rollback " ++ incident.affected_ci ++ "\n\n" ++
        "# Traditional (restart with previous version):\nsudo systemctl stop " ++ incident.affected_ci ++ "\n" ++
        "# Replace binary/artifact with previous version\nsudo systemctl start " ++ incident.affected_ci ++ "\n```\n\n" ++
        "**Validate**: Check error rate in APM dashboard within 2 minutes of rollback.")
  , .numbered_step 2
      ("**Disable problematic feature flag.**\n\nIf a feature flag was recently enabled, turn it OFF:\n```\n" ++
        "# LaunchDarkly CLI:\nlaunchdarkly flags update [FLAG_KEY] --off --environment production\n\n" ++
        "# Or via API:\ncurl -X PATCH https://app.launchdarkly.com/api/v2/flags/default/[FLAG_KEY] \\\n" ++
        "  -H \"Authorization: [API_KEY]\" \\\n" ++
        "  -d \x27[\x7b\"op\":\"replace\",\"path\":\"/environments/production/on\",\"value\":false\x7d]\x27\n```\n\n" ++
        "**Validate**: Error rate should drop within 1-2 minutes.")
  , .numbered_step 3
      ("**Restart affected services (last resort — short-term fix only).**\n\n```\n" ++
        "# Kubernetes — rolling restart:\nkubectl rollout restart deployment/" ++
        incident.affected_ci ++ " -n production\n\n" ++
        "# Systemd:\nsudo systemctl restart " ++ incident.affected_ci ++ "\n\n" ++
        "# ECS:\naws ecs update-service --cluster production --service " ++ incident.affected_ci ++
        " --force-new-deployment\n```\n\n" ++
        "⚠️ **Note**: A restart may mask the root cause. Capture heap dumps and thread dumps BEFORE restarting if OOM or deadlock is suspected:\n" ++
        "`jmap -dump:format=b,file=/tmp/heapdump.hprof [PID]`") ]

/-- `getNetworkContainmentSteps`. -/
def getNetworkContainmentSteps (incident : Incident) : List RunbookBlock :=
  [ .numbered_step 1
      ("**Revert the routing change / re-advertise the route.**\n\n⚠️ CAB required.\n\n```\n" ++
        "# Rollback network change via your network management tool\n" ++
        "# Or re-advertise the withdrawn BGP route\n" ++
        "# Specific commands depend on your network vendor — contact your network team\n```\n\n" ++
        "**Validate**: Run `traceroute " ++ incident.affected_ci ++ "` from multiple vantage points.")
  , .numbered_step 2
      ("**Revert firewall rule change.**\n\n```\n# Linux iptables — remove the blocking rule:\n" ++
        "sudo iptables -D INPUT -s [BLOCKED_IP] -j DROP\n\n" ++
        "# AWS Security Group — restore the inbound rule:\n" ++
        "aws ec2 authorize-security-group-ingress \\\n  --group-id [SG_ID] \\\n" ++
        "  --protocol tcp --port [PORT] --cidr [CIDR]\n```")
  , .numbered_step 3
      ("**Bypass CDN and route traffic directly to origin.**\n\n" ++
        "Update DNS to point directly to origin load balancer (bypasses CDN caching and edge issues):\n```\n" ++
        "# AWS Route 53 — update record to point to ALB:\n" ++
        "aws route53 change-resource-record-sets --hosted-zone-id [ZONE_ID] \\\n" ++
        "  --change-batch file://failover-dns.json\n```\n\n" ++
        "**Monitor**: DNS propagation takes 1-5 minutes. Monitor via: `watch -n 10 \"dig " ++
        incident.affected_ci ++ " @8.8.8.8\"`\n\n" ++
        "**Rollback**: Revert DNS record back to CDN CNAME once CDN issue is resolved.") ]

/-- `getCloudInfraContainmentSteps`. -/
def getCloudInfraContainmentSteps (incident : Incident) : List RunbookBlock :=
  [ .numbered_step 1
      ("**Replace impaired instances / restart pods.**\n\n```\n" ++
        "# AWS EC2 — terminate impaired instance (ASG will replace):\n" ++
        "aws ec2 terminate-instances --instance-ids [IMPAIRED_INSTANCE_ID]\n\n" ++
        "# Kubernetes — delete and reschedule pod:\nkubectl delete pod [POD_NAME] -n production\n" ++
        "# If node is impaired, cordon it:\nkubectl cordon [NODE_NAME]\n" ++
        "kubectl drain [NODE_NAME] --ignore-daemonsets --delete-emptydir-data\n```")
  , .numbered_step 2
      ("**Failover to backup region / AZ.**\n\n⚠️ CAB required — high blast radius action.\n\n```\n" ++
        "# AWS Route 53 health-check based failover:\n" ++
        "aws route53 change-resource-record-sets --hosted-zone-id [ZONE_ID] \\\n" ++
        "  --change-batch \x27\x7b\"Changes\":[\x7b\"Action\":\"UPSERT\",\"ResourceRecordSet\":\x7b\"Name\":\"[DOMAIN]\",\"Type\":\"A\",\"Failover\":\"SECONDARY\",\"HealthCheckId\":\"[HC_ID]\",\"TTL\":60,\"ResourceRecords\":[\x7b\"Value\":\"[BACKUP_IP]\"\x7d]\x7d\x7d]\x7d\x27\n```\n\n" ++
        "**Validate**: Test from external after 60 seconds (TTL).") ]

/-- `getGenericContainmentSteps`. -/
def getGenericContainmentSteps (incident : Incident) : List RunbookBlock :=
  [ .numbered_step 1
      ("**Restart the affected service (first, safest option).**\n\n```\n" ++
        "sudo systemctl restart " ++ incident.affected_ci ++ "\n" ++
        "sudo systemctl status " ++ incident.affected_ci ++ "\n```\n\n" ++
        "**Validate**: Check health endpoint within 2 minutes. If no improvement → go to Step 2.")
  , .numbered_step 2
      ("**Rollback most recent change.**\n\nIdentify the most recent change to " ++
        incident.affected_ci ++
        " and revert it. Contact the change owner and ask them to revert via normal rollback procedure.\n\n" ++
        "⚠️ CAB required for all production rollbacks.")
  , .numbered_step 3
      ("**Failover to backup/standby (if available).**\n\n" ++
        "If a backup system or standby environment exists for \x27" ++ incident.affected_service ++
        "\x27, activate it now. Update DNS/load balancer to route traffic to the backup.\n\n" ++
        "Get specific failover procedure from: [LINK TO DR PROCEDURE]") ]

/-- The category dispatch inlined in `buildSection5` (lines 499-509), lifted
out as a function of the category string: same substring chain as Section 4
except that there is no `security` branch — anything that is not database /
network / application / cloud / infra gets the generic containment steps. -/
def containmentStepsForCategory (categoryRaw : String) (incident : Incident) : List RunbookBlock :=
  let category := toLowerStr categoryRaw
  if strIncludes category "database" then getDatabaseContainmentSteps incident
  else if strIncludes category "network" then getNetworkContainmentSteps incident
  else if strIncludes category "application" then getApplicationContainmentSteps incident
  else if strIncludes category "cloud" || strIncludes category "infra" then
    getCloudInfraContainmentSteps incident
  else getGenericContainmentSteps incident

-- ============================================================
-- Section builders 1-3
-- ============================================================

/-- `buildSection1`: incident summary banner. -/
def buildSection1 (incident : Incident) : RunbookSection :=
  let blocks : List RunbookBlock :=
    [ .table
        [ ["Field", "Value"]
        , ["Incident Number", incident.number]
        , ["Title", incident.title]
        , ["Severity", incident.severity]
        , ["Priority", incident.priority]
        , ["State", incident.state]
        , ["Affected Service", incident.affected_service]
        , ["Affected CI / Resource", incident.affected_ci]
        , ["Environment", incident.environment ++
            (if optTruthy incident.region then " (" ++ incident.region.getD "" ++ ")" else "")]
        , ["Category", incident.category ++ " / " ++ incident.subcategory]
        , ["Assigned To", incident.assigned_to]
        , ["Assignment Group", incident.assignment_group]
        , ["Reported By", incident.caller_id]
        , ["Opened At", formatTimestamp incident.opened_at]
        , ["Detected At", formatTimestamp (incident.detected_at.getD incident.opened_at)]
        , ["Change Related", if incident.change_related then "YES — investigate recent changes" else "No"]
        , ["Related Incident", strOr incident.related_incident "None"] ]
    , .paragraph "**Business Impact**"
    , .paragraph incident.business_impact
    , .alert_box .critical ("⚠️  This is a Severity " ++ incident.severity ++
        " incident. Every minute of delay costs revenue and customer trust. Follow this runbook from top to bottom without skipping steps.") ]
  let blocks := blocks ++
    (if strTruthy incident.description then
      [ .paragraph "**Incident Description**", .paragraph incident.description ]
     else [])
  { sectionNumber := 1, title := "Incident Summary Banner", blocks := blocks }

/-- `buildSection2`: first-five-minutes triage checklist (appends 4 triage actions). -/
def buildSection2 (incident : Incident) (ic : Option Stakeholder)
    (zoomUrl slackChannel : String) (acc : ActionAcc) : RunbookSection × ActionAcc :=
  let acc := addAction acc "Triage"
    ("Confirm alert is genuine — check " ++ incident.affected_ci ++ " directly")
    ((ic.map (·.name)).getD "On-Call Engineer") ((ic.map (·.team)).getD "Operations") "P1" "T+2" ""
  let acc := addAction acc "Triage"
    "Assess blast radius — identify all affected services and users"
    ((ic.map (·.name)).getD "On-Call Engineer") ((ic.map (·.team)).getD "Operations") "P1" "T+3" ""
  let acc := addAction acc "Triage" "Open Zoom bridge and Slack incident channel"
    ((ic.map (·.name)).getD "On-Call Engineer") ((ic.map (·.team)).getD "Operations") "P1" "T+5" ""
  let acc := addAction acc "Triage" "Page all immediate-notify stakeholders"
    ((ic.map (·.name)).getD "On-Call Engineer") ((ic.map (·.team)).getD "Operations") "P1" "T+5" ""
  let blocks : List RunbookBlock :=
    [ .alert_box .warning
        "Complete all steps in this section within 5 minutes of picking up the alert. Do not investigate root cause yet — your goal is to confirm, assess, and mobilise."
    , .numbered_step 1
        ("**T+0 — Confirm the alert is genuine.**\n\nCheck that " ++ incident.affected_ci ++
          " is actually unreachable or degraded. Do NOT assume the monitoring tool is always right — false positives happen.\n\n" ++
          "Run: `ping " ++ incident.affected_ci ++ "` and `curl -I https://" ++
          incident.affected_ci ++ "/health` (or equivalent health endpoint)\n\n" ++
          "If the CI responds normally → the alert may be a false positive. Acknowledge in monitoring and add a note to " ++
          incident.number ++ " before standing down.")
    , .numbered_step 2
        ("**T+1 — Check the monitoring dashboard.**\n\nOpen the primary monitoring dashboard for \x27" ++
          incident.affected_service ++ "\x27. Look for:\n" ++
          "• Red/critical alerts in the last 15 minutes\n" ++
          "• Any correlated alerts (DB + App + Network firing together suggests a larger blast radius)\n" ++
          "• Comparison to baseline from same time yesterday")
    , .numbered_step 3
        ("**T+2 — Assess blast radius.**\n\nAnswer these questions before joining the bridge:\n" ++
          "• How many users/customers are affected? (check active sessions, error rates)\n" ++
          "• What downstream services depend on \x27" ++ incident.affected_ci ++ "\x27?\n" ++
          "• Is this isolated to one region (" ++ incident.region.getD "check all regions" ++
          ") or multi-region?\n" ++
          "• Are any other Sev1/Sev2 incidents currently open that could be related?")
    , .numbered_step 4
        ("**T+3 — Open the incident Slack channel.**\n\nCreate channel: " ++ slackChannel ++
          "\n\nPaste this message as the first post:\n\n```\n🚨 INCIDENT OPEN: " ++ incident.number ++
          "\nSeverity: " ++ incident.severity ++ "\nService: " ++ incident.affected_service ++
          "\nCI: " ++ incident.affected_ci ++ "\nImpact: " ++ incident.business_impact ++
          "\nBridge: " ++ zoomUrl ++ "\nRunbook: [paste link to this document]\nIC: " ++
          (ic.map (·.name)).getD "[Incident Commander]" ++ " (" ++
          (ic.map (·.slack)).getD "[slack handle]" ++ ")\n```")
    , .numbered_step 5
        ("**T+4 — Join the Zoom bridge call.**\n\nBridge URL: " ++ zoomUrl ++ "\nDial-in: " ++
          (ic.bind (·.bridge_phone)).getD "[see stakeholders list]" ++
          "\n\nWhen you join, say:\n> \"This is [YOUR NAME], I\x27m the on-call engineer. I\x27m declaring this a Sev1 for " ++
          incident.affected_service ++ ". Incident number " ++ incident.number ++ ". " ++
          (if optTruthy (ic.map (·.name)) then
            (ic.map (·.name)).getD "" ++ " is the Incident Commander."
           else "We need to assign an Incident Commander now.") ++
          " I\x27ll begin triage while the team joins.\"\n\nRecord the exact time you joined.")
    , .numbered_step 6
        "**T+5 — Page immediate-notify stakeholders.**\n\nThe following people must be notified RIGHT NOW (use phone if Slack is unresponsive):" ]
  -- The source computes `getStakeholdersByLevel(1, true, [])` here and tests its
  -- length in an if whose body is only a comment; the call has no effect.
  let _immediateStakeholders := getStakeholdersByLevel 1 true []
  let blocks := blocks ++
    [ .table
        [ ["Name", "Role", "Slack", "Phone"]
        , ["[IC_NAME]", "Incident Commander", "[IC_SLACK]", "[IC_PHONE]"]
        , ["[TECH_LEAD_NAME]", "Technical Lead", "[TECH_SLACK]", "[TECH_PHONE]"]
        , ["[COMMS_LEAD_NAME]", "Communications Lead", "[COMMS_SLACK]", "[COMMS_PHONE]"] ] ]
  ({ sectionNumber := 2, title := "Immediate Triage Checklist (First 5 Minutes)", blocks := blocks }, acc)

/-- `buildSection3`: communication plan (appends 4 comms actions, embeds the six
email templates). -/
def buildSection3 (incident : Incident) (stakeholders : List Stakeholder)
    (ic commsLead : Option Stakeholder) (emailTemplates : List EmailTemplate)
    (acc : ActionAcc) : RunbookSection × ActionAcc :=
  let acc := addAction acc "Comms" "Send Initial Incident Notification email (Template 1)"
    ((commsLead.map (·.name)).getD "Comms Lead") ((commsLead.map (·.team)).getD "Communications") "P1" "T+5" ""
  let acc := addAction acc "Comms" "Post Slack message to incident channel"
    ((commsLead.map (·.name)).getD "Comms Lead") ((commsLead.map (·.team)).getD "Communications") "P1" "T+5" ""
  let acc := addAction acc "Comms" "Send War Room Established email (Template 2)"
    ((commsLead.map (·.name)).getD "Comms Lead") ((commsLead.map (·.team)).getD "Communications") "P1" "T+10" ""
  let acc := addAction acc "Comms" "Send T+30 Status Update email (Template 3)"
    ((commsLead.map (·.name)).getD "Comms Lead") ((commsLead.map (·.team)).getD "Communications") "P1" "T+30" ""
  let blocks : List RunbookBlock :=
    [ .paragraph ("**Communication Owner**: " ++ (commsLead.map (·.name)).getD "Comms Lead" ++
        " (" ++ (commsLead.map (·.slack)).getD "assign a comms lead now" ++ ")")
    , .paragraph "**Update Cadence**: Status updates every **30 minutes** until Sev1 is resolved, then final resolution email."
    , .heading 2 "Stakeholder Role Map"
    , .table
        ( ["Name", "Role", "Notify When", "Method", "Email"] ::
          stakeholders.map (fun s =>
            [ s.name
            , s.role
            , if s.escalation_level.val == 1 then "Immediately (T+0)"
              else if s.escalation_level.val == 2 then "T+30 or if not resolved"
              else "T+60 or if escalated"
            , if s.notify_immediately then "Phone + Slack + Email" else "Slack + Email"
            , s.email ]))
    , .heading 2 "Slack Communication Steps"
    , .numbered_step 1
        ("Create Slack channel: **" ++ replaceFirst (toLowerStr incident.number) "inc" "#inc" ++
          "** (format: `/incident-channel " ++ incident.number ++ "` or create manually)")
    , .numbered_step 2
        ("Invite the following people to the channel:\n" ++
          String.intercalate " "
            ((stakeholders.filter (fun s => s.escalation_level.val == 1)).map (·.slack)))
    , .numbered_step 3
        "Pin the Incident Summary message at the top of the channel so all joiners see it immediately."
    , .numbered_step 4
        "Post a status update in the channel every 30 minutes, even if there is nothing new to report. Silence breeds rumour."
    , .heading 2 "Email Templates"
    , .paragraph "Six ready-to-send email templates are provided below — one for each phase of the incident. Copy-paste the template, fill in the bracketed placeholders [LIKE THIS], and send." ]
  let blocks := blocks ++ emailTemplates.map (fun t => .email_template t)
  ({ sectionNumber := 3, title := "Communication Plan", blocks := blocks }, acc)

-- ============================================================
-- Section builders 4-8, assembler
-- ============================================================

/-- The fixed hypothesis-log trailer pushed at the end of `buildSection4`
(lines 292-299). -/
def hypothesisLogBlocks : List RunbookBlock :=
  [ .heading 2 "Root Cause Hypothesis Log"
  , .paragraph "Before moving to containment, post your working hypothesis in the Slack channel:"
  , .command ("We believe the root cause is: [YOUR HYPOTHESIS]\nEvidence supporting this: [LIST EVIDENCE]\n" ++
      "Evidence against this: [CONTRADICTORY FINDINGS]\nConfidence level: High / Medium / Low\n" ++
      "Recommended next action: [SPECIFIC ACTION]") ]

/-- `buildSection4`: diagnosis and investigation (appends 4 diagnosis actions;
category routing via `diagnosisStepsForCategory`). -/
def buildSection4 (incident : Incident) (ic techLead : Option Stakeholder)
    (acc : ActionAcc) : RunbookSection × ActionAcc :=
  let acc := addAction acc "Diagnosis"
    ("Run initial " ++ incident.category ++ " health check on " ++ incident.affected_ci)
    ((techLead.map (·.name)).getD "Technical Lead") ((techLead.map (·.team)).getD "Engineering") "P1" "T+10" ""
  let acc := addAction acc "Diagnosis" "Collect logs from affected CI and downstream services"
    ((techLead.map (·.name)).getD "Technical Lead") ((techLead.map (·.team)).getD "Engineering") "P1" "T+15" ""
  let acc := addAction acc "Diagnosis" "Check recent change/deployment history (last 4 hours)"
    ((techLead.map (·.name)).getD "Technical Lead") ((techLead.map (·.team)).getD "Engineering") "P1" "T+15" ""
  let acc := addAction acc "Diagnosis" "Document working hypothesis in Slack channel"
    ((ic.map (·.name)).getD "IC") ((ic.map (·.team)).getD "Operations") "P2" "T+20" ""
  let blocks : List RunbookBlock :=
    [ .paragraph ("**Owner**: " ++ (techLead.map (·.name)).getD "Technical Lead" ++ " (" ++
        (techLead.map (·.slack)).getD "assign tech lead" ++
        ")\n\n**Goal of this section**: Understand WHAT is broken and WHY, so you can take the right containment action. Work through steps in order. Document every finding in the Slack channel as you go.")
    , .alert_box .info
        "For every check below: state what you expected vs. what you found. \x27Good\x27 means the result matches expected baseline. \x27Bad\x27 means it deviates and needs investigation." ]
  let blocks := blocks ++ diagnosisStepsForCategory incident.category incident ++ hypothesisLogBlocks
  ({ sectionNumber := 4, title := "Diagnosis & Investigation Steps", blocks := blocks }, acc)

/-- `buildSection5`: containment and mitigation (appends 3 containment actions;
category routing via `containmentStepsForCategory`). -/
def buildSection5 (incident : Incident) (techLead : Option Stakeholder)
    (acc : ActionAcc) : RunbookSection × ActionAcc :=
  let acc := addAction acc "Containment" "Execute primary containment action (per diagnosis findings)"
    ((techLead.map (·.name)).getD "Technical Lead") ((techLead.map (·.team)).getD "Engineering") "P1" "T+20" ""
  let acc := addAction acc "Containment" "Validate containment effectiveness — monitor error rates"
    ((techLead.map (·.name)).getD "Technical Lead") ((techLead.map (·.team)).getD "Engineering") "P1" "T+30" ""
  let acc := addAction acc "Containment" "Document all actions taken with exact timestamps in Slack"
    ((techLead.map (·.name)).getD "Technical Lead") ((techLead.map (·.team)).getD "Engineering") "P2" "T+35" ""
  let blocks : List RunbookBlock :=
    [ .paragraph ("**Owner**: " ++ (techLead.map (·.name)).getD "Technical Lead" ++
        "\n\n**Rule**: Before executing any containment action, announce it in " ++
        toLowerStr incident.number ++
        " Slack channel:\n> \"About to execute: [ACTION]. Expected impact: [IMPACT]. Rollback plan: [ROLLBACK]. Approvals: [NAMES]\"\n\n" ++
        "For **irreversible or high-risk actions**, obtain verbal approval from the Incident Commander and document it in the Slack channel.")
    , .alert_box .warning
        "CAB Emergency Approval: Some actions below (marked ⚠️ CAB) require Change Advisory Board emergency approval. To get fast approval: (1) Call the CAB emergency line at [CAB_PHONE], (2) State incident number and requested change, (3) Get verbal approval from the CAB chair, (4) Log the change in your ITSM tool immediately after." ]
  let blocks := blocks ++ containmentStepsForCategory incident.category incident
  ({ sectionNumber := 5, title := "Containment & Mitigation Actions", blocks := blocks }, acc)

/-- `buildSection6`: escalation matrix (vendor sub-table only when the vendor
list is non-empty). -/
def buildSection6 (stakeholders : List Stakeholder) (vendors : List VendorEscalation) :
    RunbookSection :=
  let blocks : List RunbookBlock :=
    [ .paragraph "Use this matrix to escalate if the incident is not resolved within the stated time window. **Do not wait until the time is up** — if you are not making progress, escalate sooner."
    , .table
        [ ["Time Elapsed", "Action", "Escalate To", "Contact Method"]
        , ["T+15 (not contained)", "Escalate to Technical Lead + IC if not already engaged"
          , String.intercalate ", " (((stakeholders.filter (fun s => s.escalation_level.val == 1))).map (·.name))
          , "Phone + Slack"]
        , ["T+30 (not contained)", "Escalate to VP/Senior Management; consider vendor support"
          , strOr (String.intercalate ", " (((stakeholders.filter (fun s => s.escalation_level.val == 2))).map (·.name))) "Level 2 contacts"
          , "Phone + Email"]
        , ["T+60 (not contained)", "Escalate to C-Suite; open P1 case with relevant vendor"
          , strOr (String.intercalate ", " (((stakeholders.filter (fun s => s.escalation_level.val == 3))).map (·.name))) "Executive team"
          , "Phone"]
        , ["T+120 (still unresolved)", "Consider declaring Major Incident; invoke DR plan; all hands"
          , "All stakeholders + DRI team", "Emergency all-hands bridge"] ]
    , .heading 2 "Individual Escalation Contacts"
    , .table
        ( ["Name", "Role", "Escalation Level", "Phone", "Email", "Slack"] ::
          stakeholders.map (fun s =>
            [ s.name
            , s.role
            , if s.escalation_level.val == 1 then "Level 1 — Immediate"
              else if s.escalation_level.val == 2 then "Level 2 — T+30"
              else "Level 3 — T+60+"
            , s.phone
            , s.email
            , s.slack ])) ]
  let blocks := blocks ++
    (if vendors.length > 0 then
      [ .heading 2 "Vendor / Third-Party Escalation"
      , .table
          ( ["Vendor", "Account Number", "Support URL", "Phone", "Severity to Declare"] ::
            vendors.map (fun v => [v.vendor, v.account_number, v.support_url, v.phone, v.severity_mapping])) ]
     else [])
  { sectionNumber := 6, title := "Escalation Matrix", blocks := blocks }

/-- `buildSection7`: resolution and validation (appends 5 resolution actions). -/
def buildSection7 (incident : Incident) (ic : Option Stakeholder)
    (acc : ActionAcc) : RunbookSection × ActionAcc :=
  let acc := addAction acc "Resolution"
    ("Validate " ++ incident.affected_service ++ " end-to-end health checks pass")
    ((ic.map (·.name)).getD "IC") ((ic.map (·.team)).getD "Operations") "P1" "T+0 post-fix" ""
  let acc := addAction acc "Resolution" "Confirm error rate and latency return to baseline"
    ((ic.map (·.name)).getD "IC") ((ic.map (·.team)).getD "Operations") "P1" "T+5 post-fix" ""
  let acc := addAction acc "Resolution" "Run synthetic monitor / smoke test"
    ((ic.map (·.name)).getD "IC") ((ic.map (·.team)).getD "Operations") "P1" "T+5 post-fix" ""
  let acc := addAction acc "Resolution" "Formally downgrade to Sev2 / close bridge once all checks pass"
    ((ic.map (·.name)).getD "IC") ((ic.map (·.team)).getD "Operations") "P2" "T+10 post-fix" ""
  let acc := addAction acc "Resolution" "Send Service Restored notification (Email Template 5)"
    ((ic.map (·.name)).getD "IC") ((ic.map (·.team)).getD "Operations") "P1" "T+5 post-fix" ""
  let blocks : List RunbookBlock :=
    [ .paragraph ("**Owner**: " ++ (ic.map (·.name)).getD "Incident Commander" ++
        "\n\nBefore declaring the incident resolved, ALL of the following criteria must be met. Do not close the incident if any item is failing or unclear.")
    , .heading 2 "Resolution Criteria Checklist"
    , .checklist_item ("Health endpoint returns 200 OK: `curl -I https://" ++
        incident.affected_ci ++ "/health`")
    , .checklist_item ("Synthetic monitor for \x27" ++ incident.affected_service ++
        "\x27 is GREEN (check your monitoring tool)")
    , .checklist_item "Error rate has returned to pre-incident baseline (check APM dashboard)"
    , .checklist_item "P99 latency has returned to normal range"
    , .checklist_item "Customer-facing checkout / primary user flow is functioning end-to-end"
    , .checklist_item "Alerting rules are no longer firing"
    , .checklist_item "On-call engineer has monitored for 10 minutes with no re-trigger"
    , .checklist_item "Business stakeholder (Customer Impact Lead) has confirmed no open customer complaints"
    , .heading 2 "Severity Downgrade Criteria"
    , .table
        [ ["Condition", "Action"]
        , ["All health checks pass, no customer impact, stable for 10 min", "Downgrade to Sev2 and continue monitoring"]
        , ["Partial restoration (some customers still affected)", "Downgrade to Sev2, keep bridge open, continue investigation"]
        , ["Workaround in place (not fully resolved)", "Downgrade to Sev2, open follow-up task for permanent fix"] ]
    , .heading 2 "Closing the Bridge"
    , .numbered_step 1
        "Announce in the Zoom bridge: \"Service is restored. All health checks passing. We are closing the bridge. Thank you everyone.\""
    , .numbered_step 2
        ("Post in Slack channel " ++ replaceFirst (toLowerStr incident.number) "inc" "#inc" ++
          ":\n\n```\n✅ INCIDENT RESOLVED: " ++ incident.number ++
          "\nService: " ++ incident.affected_service ++
          "\nResolved At: [TIMESTAMP UTC]\nDuration: [X hours Y minutes]\n" ++
          "Root Cause (preliminary): [ROOT_CAUSE_HYPOTHESIS]\nAction Taken: [SUMMARY_OF_FIX]\n" ++
          "Next Steps: PIR to be scheduled within 5 business days\n```")
    , .numbered_step 3 "Send the Service Restored email (Template 5 in Section 3)."
    , .numbered_step 4
        "Stand down all escalated stakeholders — send personal message or call to confirm they know the incident is over." ]
  ({ sectionNumber := 7, title := "Resolution & Validation", blocks := blocks }, acc)

/-- `buildSection8`: post-incident handoff (appends 3 handoff actions). -/
def buildSection8 (incident : Incident) (ic commsLead : Option Stakeholder)
    (acc : ActionAcc) : RunbookSection × ActionAcc :=
  let acc := addAction acc "Resolution" "Update ServiceNow incident ticket with timeline and resolution"
    ((ic.map (·.name)).getD "IC") ((ic.map (·.team)).getD "Operations") "P2" "T+30 post-fix" ""
  let acc := addAction acc "Resolution" "Create PIR ticket and schedule PIR meeting"
    ((ic.map (·.name)).getD "IC") ((ic.map (·.team)).getD "Operations") "P2" "T+2 days" ""
  let acc := addAction acc "Resolution" "Send PIR invitation email (Template 6)"
    ((commsLead.map (·.name)).getD "Comms Lead") ((commsLead.map (·.team)).getD "Communications") "P2" "T+1 day" ""
  let blocks : List RunbookBlock :=
    [ .paragraph ("**Owner**: " ++ (ic.map (·.name)).getD "Incident Commander" ++
        "\n\nComplete this section before closing " ++ incident.number ++
        " in ServiceNow. A well-documented post-incident record prevents the same incident from happening again.")
    , .heading 2 "Documentation Before Closing"
    , .checklist_item "Complete timeline of events documented (use Slack channel history + Excel Timeline sheet)"
    , .checklist_item "All containment actions documented with exact timestamps and who performed them"
    , .checklist_item "Root cause hypothesis documented (even if unconfirmed — note confidence level)"
    , .checklist_item "Customer impact quantified (number of users, duration, business cost)"
    , .checklist_item "Any temporary workarounds noted with follow-up tasks created"
    , .checklist_item "All follow-up Jira/ticket items created and assigned with due dates"
    , .heading 2 "ServiceNow Resolution Update"
    , .paragraph ("Update ticket **" ++ incident.number ++
        "** in ServiceNow with the following information:\n\n**Resolution Notes Template**:")
    , .command ("RESOLUTION NOTES — " ++ incident.number ++
        "\n\nIncident opened: [OPENED_TIMESTAMP]\nService restored: [RESOLVED_TIMESTAMP]\n" ++
        "Total duration: [X hours Y minutes]\n\nRoot Cause (Preliminary):\n" ++
        "[DESCRIBE THE ROOT CAUSE - be specific, not generic. E.g., \"Oracle RAC node prod-oracle-01 crashed due to ORA-04031 (shared pool memory exhaustion) triggered by an unoptimized query deployed in release v2.4.1 at 13:45 UTC\"]" ++
        "\n\nContainment Actions Taken:\n1. [TIMESTAMP] [ACTION] — performed by [NAME]\n" ++
        "2. [TIMESTAMP] [ACTION] — performed by [NAME]\n\nCustomer Impact:\n" ++
        "- Duration of impact: [X hours Y minutes]\n- Services affected: [LIST]\n" ++
        "- Estimated users impacted: [NUMBER]\n\nFollow-up Actions (link to tickets):\n" ++
        "- [JIRA-XXX]: Root cause investigation\n- [JIRA-XXX]: Monitoring/alerting improvements\n" ++
        "- [JIRA-XXX]: Process improvements\n\nPIR scheduled: [DATE] [TIME] with [ATTENDEES]")
    , .heading 2 "Post-Incident Review (PIR) Ticket"
    , .paragraph "Raise a PIR ticket (Problem record in ServiceNow) within 24 hours of resolution. Use the template below:"
    , .command ("PIR TICKET — " ++ incident.number ++
        "\n\nTitle: PIR: " ++ incident.title ++
        "\nCategory: Problem Management\nPriority: 2 - High\nAssigned To: " ++
        (ic.map (·.name)).getD "[INCIDENT COMMANDER]" ++
        "\n\nDescription:\nPost-Incident Review for " ++ incident.number ++ " — " ++ incident.title ++
        "\n\nIncident Summary:\n- Severity: " ++ incident.severity ++
        "\n- Affected Service: " ++ incident.affected_service ++
        "\n- Detected: [TIMESTAMP]\n- Resolved: [TIMESTAMP]\n- Duration: [X hours Y minutes]\n" ++
        "- Impact: " ++ incident.business_impact ++
        "\n\nReview Meeting:\n- Date: [PIR_DATE] (within 5 business days)\n- Duration: 60 minutes\n" ++
        "- Attendees: " ++ (ic.map (·.name)).getD "[IC]" ++
        ", [TECH_LEAD], [COMMS_LEAD], [AFFECTED_TEAM_LEADS]" ++
        "\n\nAgenda:\n1. Timeline walkthrough (15 min)\n2. Root cause analysis (20 min)\n" ++
        "3. What went well (10 min)\n4. What to improve (10 min)\n5. Action items (5 min)" ++
        "\n\nPre-reads:\n- This runbook: [LINK]\n- Incident timeline (Excel Sheet 3): [LINK]\n" ++
        "- Monitoring dashboard screenshots: [LINK]")
    , .heading 2 "ServiceNow Ticket Closure Checklist"
    , .checklist_item "Set State to \"Resolved\""
    , .checklist_item "Set Close Code to appropriate category (e.g., \x27Software\x27, \x27Infrastructure\x27, \x27User Error\x27)"
    , .checklist_item "Fill in Resolution Notes (use template above)"
    , .checklist_item "Link PIR Problem ticket in the Related Problems field"
    , .checklist_item "Attach this runbook (.docx) and the action tracker (.xlsx) to the ticket"
    , .checklist_item "Send Template 6 (PIR Invitation email) to all stakeholders"
    , .checklist_item "Archive the Slack incident channel (do NOT delete — retain for audit)" ]
  ({ sectionNumber := 8, title := "Post-Incident Handoff", blocks := blocks }, acc)

/-- `generateRunbook`: the main entry point. The source's
`new Date().toISOString()` is the explicit `now` parameter; the `addAction`
closure is the threaded `ActionAcc` starting at counter 1. -/
def generateRunbook (now : String) (incident : Incident)
    (stakeholders : List Stakeholder) (vendors : List VendorEscalation) : RunbookOutput :=
  let ic := findByRole stakeholders "Incident Commander"
  let techLead := findByRole stakeholders "Technical Lead"
  let commsLead := findByRole stakeholders "Communications Lead"
  let _customerLead := findByRole stakeholders "Customer Impact"
  let _execSponsor := findByRole stakeholders "Executive Sponsor"
  let bridgeHolder := (stakeholders.find? (fun s => optTruthy s.bridge_url)).orElse (fun _ => ic)
  let zoomUrl := (bridgeHolder.bind (·.bridge_url)).getD "[ZOOM_BRIDGE_URL]"
  let _bridgePhone := (bridgeHolder.bind (·.bridge_phone)).getD "[BRIDGE_DIAL_IN]"
  let slackChannel := "#inc" ++ stripNonAlnum (toLowerStr incident.number)
  let _detectedAt := incident.detected_at.getD incident.opened_at
  let emailTemplates := buildEmailTemplates incident stakeholders ic commsLead zoomUrl slackChannel
  let acc0 : ActionAcc := { counter := 1, items := [] }
  let s1 := buildSection1 incident
  let r2 := buildSection2 incident ic zoomUrl slackChannel acc0
  let r3 := buildSection3 incident stakeholders ic commsLead emailTemplates r2.2
  let r4 := buildSection4 incident ic techLead r3.2
  let r5 := buildSection5 incident techLead r4.2
  let s6 := buildSection6 stakeholders vendors
  let r7 := buildSection7 incident ic r5.2
  let r8 := buildSection8 incident ic commsLead r7.2
  let sections := [s1, r2.1, r3.1, r4.1, r5.1, s6, r7.1, r8.1]
  let escalationEntries := buildEscalationEntries stakeholders
  { incident := incident
    stakeholders := stakeholders
    vendors := vendors
    sections := sections
    emailTemplates := emailTemplates
    actionItems := r8.2.items
    escalationEntries := escalationEntries
    generatedAt := now
    slackChannel := slackChannel
    zoomUrl := zoomUrl
    incidentCommander := ic
    technicalLead := techLead
    commsLead := commsLead }

-- ============================================================
-- Spec-side category router (for the refinement claim C3) and
-- block predicates
-- ============================================================

/-- The six routing outcomes of the spec's Category Router (§4.2). -/
inductive RoutedCategory where
  | database
  | network
  | application
  | cloudInfra
  | security
  | generic
deriving Repr, DecidableEq

/-- The spec's Category Router contract (§4.2), written from the spec's words:
lower-case the category, then substring-match in priority order database,
network, application, cloud-or-infra, security, else generic. Declared
separately from the source's inlined dispatch so the two can be compared. -/
def specCategoryRouter (category : String) : RoutedCategory :=
  let c := toLowerStr category
  if strIncludes c "database" then .database
  else if strIncludes c "network" then .network
  else if strIncludes c "application" then .application
  else if strIncludes c "cloud" || strIncludes c "infra" then .cloudInfra
  else if strIncludes c "security" then .security
  else .generic

/-- The diagnosis generator the spec assigns to each routing outcome. -/
def specDiagSteps : RoutedCategory → Incident → List RunbookBlock
  | .database => getDatabaseDiagnosisSteps
  | .network => getNetworkDiagnosisSteps
  | .application => getApplicationDiagnosisSteps
  | .cloudInfra => getCloudInfraDiagnosisSteps
  | .security => getSecurityDiagnosisSteps
  | .generic => getGenericDiagnosisSteps

/-- The containment generator the spec assigns to each routing outcome:
Security has no dedicated containment set and falls through to generic. -/
def specContainSteps : RoutedCategory → Incident → List RunbookBlock
  | .database => getDatabaseContainmentSteps
  | .network => getNetworkContainmentSteps
  | .application => getApplicationContainmentSteps
  | .cloudInfra => getCloudInfraContainmentSteps
  | .security => getGenericContainmentSteps
  | .generic => getGenericContainmentSteps

/-- Recogniser for decision-tree blocks. -/
def isDecisionTree : RunbookBlock → Bool
  | .decision_tree _ _ => true
  | _ => false

/-- Recogniser for critical alert boxes. -/
def isCriticalAlert : RunbookBlock → Bool
  | .alert_box .critical _ => true
  | _ => false

/-- Recogniser for Section 6's vendor sub-table heading. -/
def isVendorEscalationHeading : RunbookBlock → Bool
  | .heading level text => level == 2 && text == "Vendor / Third-Party Escalation"
  | _ => false

/-- Out-of-range default used with `List.getD` on section lists. -/
def defaultSection : RunbookSection := { sectionNumber := 0, title := "", blocks := [] }

/-- The immediate-recipient email list (`toImmediate` in `buildEmailTemplates`):
stakeholders that are notify-immediately or level 1, in list order. -/
def immEmails (stakeholders : List Stakeholder) : List String :=
  (stakeholders.filter (fun s => s.notify_immediately || s.escalation_level.val == 1)).map (·.email)

/-- The level-2 email list of `buildEmailTemplates`. -/
def l2Emails (stakeholders : List Stakeholder) : List String :=
  (stakeholders.filter (fun s => s.escalation_level.val == 2)).map (·.email)

/-- The level-3 email list of `buildEmailTemplates`. -/
def l3Emails (stakeholders : List Stakeholder) : List String :=
  (stakeholders.filter (fun s => s.escalation_level.val == 3)).map (·.email)

-- ============================================================
-- Concrete fixtures used by the claim theorems
-- ============================================================

/-- The spec §8.8 end-to-end incident: INC0001, Database, db-01, Sev 1. -/
def inc0001 : Incident :=
  { number := "INC0001", title := "Checkout database outage"
    severity := "1 - Critical", priority := "1 - Critical", state := "In Progress"
    category := "Database", subcategory := "Oracle"
    affected_service := "Checkout", affected_ci := "db-01"
    environment := "production", region := some "us-east-1"
    business_impact := "Customers cannot complete checkout"
    opened_at := "2026-02-26T12:00:00Z", detected_at := none
    assigned_to := "DBA On-Call", assignment_group := "Database Operations"
    caller_id := "monitoring", short_description := "DB outage", description := ""
    change_related := false, related_incident := ""
    resolution_notes := "", close_code := "" }

/-- Alice, the spec §8.8 Incident Commander. -/
def alice : Stakeholder :=
  { name := "Alice", role := "Incident Commander", title := "SRE Manager"
    team := "Operations", email := "alice@example.com", phone := "+1-555-0100"
    slack := "@alice", escalation_level := ⟨1, by omega⟩, notify_immediately := true
    bridge_url := none, bridge_phone := none }

/-- Bob, the spec §8.8 Technical Lead. -/
def bob : Stakeholder :=
  { name := "Bob", role := "Technical Lead", title := "Principal Engineer"
    team := "Engineering", email := "bob@example.com", phone := "+1-555-0101"
    slack := "@bob", escalation_level := ⟨1, by omega⟩, notify_immediately := true
    bridge_url := none, bridge_phone := none }

/-- Stakeholder A of the claim C2 example: level 1, notify immediately. -/
def stakeA : Stakeholder := { alice with name := "A", email := "a@example.com" }

/-- Stakeholder B of the claim C2 example: level 2, not notify-immediately. -/
def stakeB : Stakeholder :=
  { alice with
    name := "B", role := "VP Engineering", email := "b@example.com"
    escalation_level := ⟨2, by omega⟩, notify_immediately := false }

/-- Stakeholder C of the claim C2 example: level 3, not notify-immediately. -/
def stakeC : Stakeholder :=
  { alice with
    name := "C", role := "CTO", email := "c@example.com"
    escalation_level := ⟨3, by omega⟩, notify_immediately := false }

/-- A stakeholder that is both notify-immediately and escalation level 2 —
the configuration on which the status-update recipient lists duplicate. -/
def dupStakeholder : Stakeholder :=
  { alice with
    name := "Dana", role := "VP Engineering", email := "dana@example.com"
    escalation_level := ⟨2, by omega⟩, notify_immediately := true }

/-- An incident whose category is exactly `"Security"`. -/
def incSec : Incident := { inc0001 with category := "Security", subcategory := "Intrusion" }

/-- An incident whose category contains both `"database"` and `"security"`. -/
def incDbSec : Incident := { inc0001 with category := "Database Security" }

/-- First stakeholder carrying the Technical Lead keyword (claim C4 example). -/
def stPrimary : Stakeholder := { bob with name := "Priya", role := "Technical Lead (Primary)" }

/-- Second stakeholder carrying the Technical Lead keyword (claim C4 example). -/
def stSecondary : Stakeholder := { bob with name := "Sam", role := "Technical Lead (Secondary)" }

/-- A stakeholder matching none of the role keywords. -/
def stOther : Stakeholder := { alice with name := "Olly", role := "Scribe" }

-- ============================================================
-- General lemmas
-- ============================================================

/-- Mapping a function of the element over `enumFrom` ignores the indices. -/
theorem enumFrom_map_snd_fun {α β : Type} (f : α → β) (l : List α) :
    ∀ n : Nat, (List.enumFrom n l).map (fun p => f p.2) = l.map f := by
  induction l with
  | nil => intro n; rfl
  | cons a t ih => intro n; simp [List.enumFrom, ih (n + 1)]

/-- Mapping a function of the index over `enumFrom` yields a map over a range. -/
theorem enumFrom_map_fst_fun {α β : Type} (f : Nat → β) (l : List α) :
    ∀ n : Nat, (List.enumFrom n l).map (fun p => f p.1) =
      (List.range l.length).map (fun k => f (n + k)) := by
  induction l with
  | nil => intro n; rfl
  | cons a t ih =>
    intro n
    have h1 : (List.range (t.length + 1)).map (fun k => f (n + k)) =
        f n :: (List.range t.length).map (fun k => f (n + 1 + k)) := by
      rw [List.range_succ_eq_map, List.map_cons, List.map_map]
      refine congrArg₂ _ (by simp) (List.map_congr_left (fun k _ => ?_))
      show f (n + (k + 1)) = f (n + 1 + k)
      congr 1
      omega
    simp [List.enumFrom, ih (n + 1), h1]

-- ============================================================
-- Per-builder action-ledger characterizations (each definitional)
-- ============================================================

/-- Section 2's effect on the ledger: its four triage `addAction` calls. -/
theorem buildSection2_acc (incident : Incident) (ic : Option Stakeholder)
    (zoomUrl slackChannel : String) (acc : ActionAcc) :
    (buildSection2 incident ic zoomUrl slackChannel acc).2 =
      addAction (addAction (addAction (addAction acc "Triage"
        ("Confirm alert is genuine — check " ++ incident.affected_ci ++ " directly")
        ((ic.map (·.name)).getD "On-Call Engineer") ((ic.map (·.team)).getD "Operations") "P1" "T+2" "")
        "Triage" "Assess blast radius — identify all affected services and users"
        ((ic.map (·.name)).getD "On-Call Engineer") ((ic.map (·.team)).getD "Operations") "P1" "T+3" "")
        "Triage" "Open Zoom bridge and Slack incident channel"
        ((ic.map (·.name)).getD "On-Call Engineer") ((ic.map (·.team)).getD "Operations") "P1" "T+5" "")
        "Triage" "Page all immediate-notify stakeholders"
        ((ic.map (·.name)).getD "On-Call Engineer") ((ic.map (·.team)).getD "Operations") "P1" "T+5" "" := rfl

/-- Section 3's effect on the ledger: its four comms `addAction` calls. -/
theorem buildSection3_acc (incident : Incident) (stakeholders : List Stakeholder)
    (ic commsLead : Option Stakeholder) (emailTemplates : List EmailTemplate) (acc : ActionAcc) :
    (buildSection3 incident stakeholders ic commsLead emailTemplates acc).2 =
      addAction (addAction (addAction (addAction acc
        "Comms" "Send Initial Incident Notification email (Template 1)"
        ((commsLead.map (·.name)).getD "Comms Lead") ((commsLead.map (·.team)).getD "Communications") "P1" "T+5" "")
        "Comms" "Post Slack message to incident channel"
        ((commsLead.map (·.name)).getD "Comms Lead") ((commsLead.map (·.team)).getD "Communications") "P1" "T+5" "")
        "Comms" "Send War Room Established email (Template 2)"
        ((commsLead.map (·.name)).getD "Comms Lead") ((commsLead.map (·.team)).getD "Communications") "P1" "T+10" "")
        "Comms" "Send T+30 Status Update email (Template 3)"
        ((commsLead.map (·.name)).getD "Comms Lead") ((commsLead.map (·.team)).getD "Communications") "P1" "T+30" "" := rfl

/-- Section 4's effect on the ledger: its four diagnosis `addAction` calls. -/
theorem buildSection4_acc (incident : Incident) (ic techLead : Option Stakeholder) (acc : ActionAcc) :
    (buildSection4 incident ic techLead acc).2 =
      addAction (addAction (addAction (addAction acc
        "Diagnosis" ("Run initial " ++ incident.category ++ " health check on " ++ incident.affected_ci)
        ((techLead.map (·.name)).getD "Technical Lead") ((techLead.map (·.team)).getD "Engineering") "P1" "T+10" "")
        "Diagnosis" "Collect logs from affected CI and downstream services"
        ((techLead.map (·.name)).getD "Technical Lead") ((techLead.map (·.team)).getD "Engineering") "P1" "T+15" "")
        "Diagnosis" "Check recent change/deployment history (last 4 hours)"
        ((techLead.map (·.name)).getD "Technical Lead") ((techLead.map (·.team)).getD "Engineering") "P1" "T+15" "")
        "Diagnosis" "Document working hypothesis in Slack channel"
        ((ic.map (·.name)).getD "IC") ((ic.map (·.team)).getD "Operations") "P2" "T+20" "" := rfl

/-- Section 5's effect on the ledger: its three containment `addAction` calls. -/
theorem buildSection5_acc (incident : Incident) (techLead : Option Stakeholder) (acc : ActionAcc) :
    (buildSection5 incident techLead acc).2 =
      addAction (addAction (addAction acc
        "Containment" "Execute primary containment action (per diagnosis findings)"
        ((techLead.map (·.name)).getD "Technical Lead") ((techLead.map (·.team)).getD "Engineering") "P1" "T+20" "")
        "Containment" "Validate containment effectiveness — monitor error rates"
        ((techLead.map (·.name)).getD "Technical Lead") ((techLead.map (·.team)).getD "Engineering") "P1" "T+30" "")
        "Containment" "Document all actions taken with exact timestamps in Slack"
        ((techLead.map (·.name)).getD "Technical Lead") ((techLead.map (·.team)).getD "Engineering") "P2" "T+35" "" := rfl

/-- Section 7's effect on the ledger: its five resolution `addAction` calls. -/
theorem buildSection7_acc (incident : Incident) (ic : Option Stakeholder) (acc : ActionAcc) :
    (buildSection7 incident ic acc).2 =
      addAction (addAction (addAction (addAction (addAction acc
        "Resolution" ("Validate " ++ incident.affected_service ++ " end-to-end health checks pass")
        ((ic.map (·.name)).getD "IC") ((ic.map (·.team)).getD "Operations") "P1" "T+0 post-fix" "")
        "Resolution" "Confirm error rate and latency return to baseline"
        ((ic.map (·.name)).getD "IC") ((ic.map (·.team)).getD "Operations") "P1" "T+5 post-fix" "")
        "Resolution" "Run synthetic monitor / smoke test"
        ((ic.map (·.name)).getD "IC") ((ic.map (·.team)).getD "Operations") "P1" "T+5 post-fix" "")
        "Resolution" "Formally downgrade to Sev2 / close bridge once all checks pass"
        ((ic.map (·.name)).getD "IC") ((ic.map (·.team)).getD "Operations") "P2" "T+10 post-fix" "")
        "Resolution" "Send Service Restored notification (Email Template 5)"
        ((ic.map (·.name)).getD "IC") ((ic.map (·.team)).getD "Operations") "P1" "T+5 post-fix" "" := rfl

/-- Section 8's effect on the ledger: its three handoff `addAction` calls. -/
theorem buildSection8_acc (incident : Incident) (ic commsLead : Option Stakeholder) (acc : ActionAcc) :
    (buildSection8 incident ic commsLead acc).2 =
      addAction (addAction (addAction acc
        "Resolution" "Update ServiceNow incident ticket with timeline and resolution"
        ((ic.map (·.name)).getD "IC") ((ic.map (·.team)).getD "Operations") "P2" "T+30 post-fix" "")
        "Resolution" "Create PIR ticket and schedule PIR meeting"
        ((ic.map (·.name)).getD "IC") ((ic.map (·.team)).getD "Operations") "P2" "T+2 days" "")
        "Resolution" "Send PIR invitation email (Template 6)"
        ((commsLead.map (·.name)).getD "Comms Lead") ((commsLead.map (·.team)).getD "Communications") "P2" "T+1 day" "" := rfl

/-- Whole-pipeline ledger ids: exactly `ACT-` `pad3 1` through `pad3 23`. -/
theorem generateRunbook_action_ids (now : String) (i : Incident) (sh : List Stakeholder)
    (v : List VendorEscalation) :
    (generateRunbook now i sh v).actionItems.map (fun a => a.id) =
      (List.range 23).map (fun k => "ACT-" ++ pad3 (k + 1))
    ∧ (generateRunbook now i sh v).actionItems.length = 23 := by
  simp only [generateRunbook]
  rw [buildSection8_acc, buildSection7_acc, buildSection5_acc, buildSection4_acc,
      buildSection3_acc, buildSection2_acc]
  simp only [addAction, List.map_append, List.map_cons, List.map_nil, List.nil_append,
    List.append_assoc, List.length_append, List.length_cons, List.length_nil]
  refine ⟨?_, by norm_num⟩
  norm_num
  decide

-- ============================================================
-- Claim theorems
-- ============================================================

/-- C1: for incident INC0001 (category Database, CI db-01, Sev 1-Critical) with
stakeholders [Alice: Incident Commander, level 1, notify-immediately; Bob:
Technical Lead, level 1, notify-immediately] and no vendors, `generateRunbook`
resolves Alice as IC and Bob as Technical Lead, leaves the comms lead null,
derives slack channel `#incinc0001`, produces exactly 6 email templates, emits
Section 6 without any vendor sub-table block, and splices the non-empty
Database diagnosis step sequence into Section 4. -/
theorem c1_end_to_end_database :
    ((generateRunbook "2026-02-26T12:05:00Z" inc0001 [alice, bob] []).incidentCommander.map
        (fun s => s.name) = some "Alice")
    ∧ ((generateRunbook "2026-02-26T12:05:00Z" inc0001 [alice, bob] []).technicalLead.map
        (fun s => s.name) = some "Bob")
    ∧ (generateRunbook "2026-02-26T12:05:00Z" inc0001 [alice, bob] []).commsLead = none
    ∧ (generateRunbook "2026-02-26T12:05:00Z" inc0001 [alice, bob] []).slackChannel = "#incinc0001"
    ∧ (generateRunbook "2026-02-26T12:05:00Z" inc0001 [alice, bob] []).emailTemplates.length = 6
    ∧ ((generateRunbook "2026-02-26T12:05:00Z" inc0001 [alice, bob] []).sections.map
        (fun s => s.sectionNumber) = [1, 2, 3, 4, 5, 6, 7, 8])
    ∧ (((generateRunbook "2026-02-26T12:05:00Z" inc0001 [alice, bob] []).sections.getD 5
        defaultSection).blocks.length = 4)
    ∧ (((generateRunbook "2026-02-26T12:05:00Z" inc0001 [alice, bob] []).sections.getD 5
        defaultSection).blocks.all (fun b => !(isVendorEscalationHeading b)) = true)
    ∧ getDatabaseDiagnosisSteps inc0001 ≠ []
    ∧ ((((generateRunbook "2026-02-26T12:05:00Z" inc0001 [alice, bob] []).sections.getD 3
        defaultSection).blocks.drop 2).take 7 = getDatabaseDiagnosisSteps inc0001) :=
  ⟨rfl, rfl, rfl, rfl, rfl, rfl, rfl, rfl, by decide, rfl⟩

/-- C2 counterexample: for a single stakeholder that is both notify-immediately
and escalation level 2, template #3's `to` list carries that stakeholder's
email twice — refuting the claim's "no 'to' list ever contains the same
stakeholder's email twice". -/
theorem c2_counterexample_duplicate_recipient :
    ((generateRunbook "t" inc0001 [dupStakeholder] []).emailTemplates.map
        (fun t => t.«to»)).getD 2 [] = ["dana@example.com", "dana@example.com"]
    ∧ ¬ (["dana@example.com", "dana@example.com"] : List String).Nodup :=
  ⟨rfl, by decide⟩

/-- C2 amended: `generateRunbook` always yields six templates in the fixed
phase order; recipient lists are list concatenations (not sets): templates
1-2 have to = notify-immediately-or-level-1 emails and cc = level-2 emails,
templates 3, 4 and 6 have to = that immediate list ++ level-2 emails (so a
stakeholder that is both notify-immediately and level 2 appears twice) and
cc = level-3 emails, template 5 has to = all emails and empty cc; the claim's
[A: level-1/notify, B: level-2, C: level-3] example holds exactly as stated. -/
theorem c2_email_recipient_lists (now : String) (i : Incident) (sh : List Stakeholder)
    (v : List VendorEscalation) :
    ((generateRunbook now i sh v).emailTemplates.map (fun t => t.phase) =
      ["Initial Incident Notification", "War Room / Bridge Established", "30-Minute Status Update",
       "Mitigation In Progress", "Service Restored", "Incident Closed + PIR Invitation"])
    ∧ ((generateRunbook now i sh v).emailTemplates.map (fun t => t.«to») =
        [immEmails sh, immEmails sh, immEmails sh ++ l2Emails sh, immEmails sh ++ l2Emails sh,
         sh.map (fun s => s.email), immEmails sh ++ l2Emails sh])
    ∧ ((generateRunbook now i sh v).emailTemplates.map (fun t => t.cc) =
        [l2Emails sh, l2Emails sh, l3Emails sh, l3Emails sh, [], l3Emails sh])
    ∧ ((generateRunbook "t" inc0001 [stakeA, stakeB, stakeC] []).emailTemplates.map (fun t => t.«to») =
        [["a@example.com"], ["a@example.com"], ["a@example.com", "b@example.com"],
         ["a@example.com", "b@example.com"], ["a@example.com", "b@example.com", "c@example.com"],
         ["a@example.com", "b@example.com"]])
    ∧ ((generateRunbook "t" inc0001 [stakeA, stakeB, stakeC] []).emailTemplates.map (fun t => t.cc) =
        [["b@example.com"], ["b@example.com"], ["c@example.com"], ["c@example.com"], [],
         ["c@example.com"]]) :=
  ⟨rfl, rfl, rfl, rfl, rfl⟩

/-- C3: the inlined category dispatch of Sections 4 and 5 refines the spec's
Category Router: for every category string and incident it selects exactly the
generator pair named by the priority-ordered case-insensitive substring router
(database, network, application, cloud-or-infra, security — diagnosis only,
containment falling to generic — else generic), and never fails; in particular
"Database", "database outage" and "DATABASE" all route to Database, and
"Unknown-Widget" routes to the generic fallback. -/
theorem c3_category_routing :
    (∀ (category : String) (i : Incident),
        diagnosisStepsForCategory category i = specDiagSteps (specCategoryRouter category) i
        ∧ containmentStepsForCategory category i = specContainSteps (specCategoryRouter category) i)
    ∧ specCategoryRouter "Database" = .database
    ∧ specCategoryRouter "database outage" = .database
    ∧ specCategoryRouter "DATABASE" = .database
    ∧ specCategoryRouter "Unknown-Widget" = .generic := by
  refine ⟨fun category i => ?_, by decide, by decide, by decide, by decide⟩
  cases hdb : strIncludes (toLowerStr category) "database" <;>
    cases hnet : strIncludes (toLowerStr category) "network" <;>
      cases happ : strIncludes (toLowerStr category) "application" <;>
        cases hcl : strIncludes (toLowerStr category) "cloud" <;>
          cases hinf : strIncludes (toLowerStr category) "infra" <;>
            cases hsec : strIncludes (toLowerStr category) "security" <;>
              simp [diagnosisStepsForCategory, containmentStepsForCategory, specCategoryRouter,
                specDiagSteps, specContainSteps, hdb, hnet, happ, hcl, hinf, hsec]

/-- C4: role resolution returns none exactly when no stakeholder's role
contains the keyword case-insensitively, returns the first match in list order
otherwise, and on the Technical Lead (Primary)/(Secondary) pair it returns the
first. -/
theorem c4_role_resolution_first_match :
    (∀ (l : List Stakeholder) (kw : String),
        findByRole l kw = none ↔ ∀ s ∈ l, roleMatches s kw = false)
    ∧ (∀ (pre post : List Stakeholder) (s : Stakeholder) (kw : String),
        (∀ t ∈ pre, roleMatches t kw = false) → roleMatches s kw = true →
        findByRole (pre ++ s :: post) kw = some s)
    ∧ findByRole [stPrimary, stSecondary] "Technical Lead" = some stPrimary := by
  refine ⟨fun l kw => ?_, fun pre post s kw hpre hs => ?_, rfl⟩
  · simp [findByRole, List.find?_eq_none]
  · revert hpre
    induction pre with
    | nil => intro _; simp [findByRole, List.find?_cons, hs]
    | cons a t ih =>
      intro hpre
      have ha : roleMatches a kw = false := hpre a (List.mem_cons_self a t)
      rw [List.cons_append]
      unfold findByRole
      rw [List.find?_cons_of_neg]
      · exact ih (fun x hx => hpre x (List.mem_cons_of_mem a hx))
      · simp [ha]

/-- C4 witness: a concrete list [Scribe, Technical Lead (Primary), Technical
Lead (Secondary)] on which the first-match component applies. -/
theorem c4_role_resolution_first_match_witness :
    (∀ t ∈ [stOther], roleMatches t "Technical Lead" = false)
    ∧ roleMatches stPrimary "Technical Lead" = true
    ∧ findByRole ([stOther] ++ stPrimary :: [stSecondary]) "Technical Lead" = some stPrimary :=
  ⟨by decide, by decide,
   c4_role_resolution_first_match.2.1 [stOther] [stSecondary] stPrimary "Technical Lead"
     (by decide) (by decide)⟩

/-- C5: for every input the action ledger's ids are exactly ACT-001 through
ACT-NNN (3-digit zero-padded, 1-based, in order, no gaps or repeats), with NNN
the ledger length; the length is always 23, and on a concrete input the ids
evaluate to the literal ACT-001 … ACT-023. -/
theorem c5_action_ledger_ids (now : String) (i : Incident) (sh : List Stakeholder)
    (v : List VendorEscalation) :
    ((generateRunbook now i sh v).actionItems.map (fun a => a.id) =
      (List.range (generateRunbook now i sh v).actionItems.length).map
        (fun k => "ACT-" ++ pad3 (k + 1)))
    ∧ (generateRunbook now i sh v).actionItems.length = 23
    ∧ (generateRunbook "t" inc0001 [alice, bob] []).actionItems.map (fun a => a.id) =
        ["ACT-001", "ACT-002", "ACT-003", "ACT-004", "ACT-005", "ACT-006", "ACT-007", "ACT-008",
         "ACT-009", "ACT-010", "ACT-011", "ACT-012", "ACT-013", "ACT-014", "ACT-015", "ACT-016",
         "ACT-017", "ACT-018", "ACT-019", "ACT-020", "ACT-021", "ACT-022", "ACT-023"] := by
  obtain ⟨hids, hlen⟩ := generateRunbook_action_ids now i sh v
  refine ⟨hlen ▸ hids, hlen, ?_⟩
  rw [(generateRunbook_action_ids "t" inc0001 [alice, bob] []).1]
  decide

/-- C6: the escalation ledger `generateRunbook` returns is `buildEscalationEntries`
of the stakeholder list: one entry per stakeholder, in input order (names and
roles line up positionally), with ids ESC-001 through ESC-NNN for NNN the
stakeholder count. -/
theorem c6_escalation_ledger (now : String) (i : Incident) (sh : List Stakeholder)
    (v : List VendorEscalation) :
    (generateRunbook now i sh v).escalationEntries = buildEscalationEntries sh
    ∧ (buildEscalationEntries sh).length = sh.length
    ∧ (buildEscalationEntries sh).map (fun e => e.contactName) = sh.map (fun s => s.name)
    ∧ (buildEscalationEntries sh).map (fun e => e.role) = sh.map (fun s => s.role)
    ∧ (buildEscalationEntries sh).map (fun e => e.id) =
        (List.range sh.length).map (fun k => "ESC-" ++ pad3 (k + 1)) := by
  refine ⟨rfl, by simp [buildEscalationEntries], ?_, ?_, ?_⟩
  · rw [buildEscalationEntries, List.map_map]
    exact enumFrom_map_snd_fun (fun s => s.name) sh 0
  · rw [buildEscalationEntries, List.map_map]
    exact enumFrom_map_snd_fun (fun s => s.role) sh 0
  · rw [buildEscalationEntries, List.map_map]
    have h := enumFrom_map_fst_fun (fun k => "ESC-" ++ pad3 (k + 1)) sh 0
    simpa using h

/-- C7 counterexample: for category "Security" the category-specific diagnosis
sequence spliced into Section 4 is the Security generator's, and it contains
no decision-tree block at all — refuting "for every incident category, the
diagnosis sequence terminates in exactly one decision-tree block". -/
theorem c7_counterexample_security_no_decision_tree :
    diagnosisStepsForCategory incSec.category incSec = getSecurityDiagnosisSteps incSec
    ∧ (getSecurityDiagnosisSteps incSec).countP isDecisionTree = 0 :=
  ⟨rfl, rfl⟩

/-- C7 amended: for the Database, Network, Application and Cloud/Infra
categories the diagnosis sequence contains exactly one decision-tree block,
positioned last, whose final branch is the explicit default no-root-cause /
escalate case; the Security sequence contains no decision tree and instead
terminates in a critical alert block, and the Generic sequence contains no
decision tree. -/
theorem c7_diagnosis_decision_tree_structure (i : Incident) :
    ((getDatabaseDiagnosisSteps i).countP isDecisionTree = 1
      ∧ (∃ c bs, (getDatabaseDiagnosisSteps i).getLast? = some (.decision_tree c bs)
          ∧ bs.getLast? = some ("None of the above / unclear",
              "Escalate: page vendor support (see Section 6) and senior DBA now")))
    ∧ ((getNetworkDiagnosisSteps i).countP isDecisionTree = 1
      ∧ (∃ c bs, (getNetworkDiagnosisSteps i).getLast? = some (.decision_tree c bs)
          ∧ bs.getLast? = some ("Unresolved — no root cause found",
              "Escalate to Senior Network Engineer and vendor (Section 6)")))
    ∧ ((getApplicationDiagnosisSteps i).countP isDecisionTree = 1
      ∧ (∃ c bs, (getApplicationDiagnosisSteps i).getLast? = some (.decision_tree c bs)
          ∧ bs.getLast? = some ("No clear cause",
              "Escalate to senior engineer; consider blue/green failover (Section 5, Step 4)")))
    ∧ ((getCloudInfraDiagnosisSteps i).countP isDecisionTree = 1
      ∧ (∃ c bs, (getCloudInfraDiagnosisSteps i).getLast? = some (.decision_tree c bs)
          ∧ bs.getLast? = some ("Unknown",
              "Escalate to cloud architect; open cloud provider P1 case (Section 6)")))
    ∧ ((getSecurityDiagnosisSteps i).countP isDecisionTree = 0
      ∧ (∃ t, (getSecurityDiagnosisSteps i).getLast? = some (.alert_box .critical t)))
    ∧ (getGenericDiagnosisSteps i).countP isDecisionTree = 0 :=
  ⟨⟨rfl, ⟨_, _, rfl, rfl⟩⟩, ⟨rfl, ⟨_, _, rfl, rfl⟩⟩, ⟨rfl, ⟨_, _, rfl, rfl⟩⟩,
   ⟨rfl, ⟨_, _, rfl, rfl⟩⟩, ⟨rfl, ⟨_, rfl⟩⟩, rfl⟩

/-- C8 counterexample: the category "Database Security" contains "security"
(case-insensitively), yet Section 4 contains no critical alert block at all
and Section 5's category-specific content is the Database containment set
(length 4), not the generic one (length 3) — the database branch wins by
priority, refuting the claim's "for every incident whose category contains
'security'". -/
theorem c8_counterexample_mixed_category_priority :
    strIncludes (toLowerStr incDbSec.category) "security" = true
    ∧ (((generateRunbook "t" incDbSec [] []).sections.getD 3 defaultSection).blocks.countP
        isCriticalAlert = 0)
    ∧ containmentStepsForCategory incDbSec.category incDbSec = getDatabaseContainmentSteps incDbSec
    ∧ (getDatabaseContainmentSteps incDbSec).length = 4
    ∧ (getGenericContainmentSteps incDbSec).length = 3 :=
  ⟨rfl, rfl, rfl, rfl, rfl⟩

/-- C8 amended: for every incident whose lowercased category contains
"security" but none of "database", "network", "application", "cloud", "infra",
Section 4's category content is the Security diagnosis sequence followed only
by the fixed hypothesis-log trailer; that sequence ends in the critical alert
mandating escalation to CISO/Legal before containment, placed after all the
Security diagnosis steps; and Section 5's category-specific content is the
generic containment generator's output. -/
theorem c8_security_category_override (now : String) (i : Incident) (sh : List Stakeholder)
    (v : List VendorEscalation)
    (hsec : strIncludes (toLowerStr i.category) "security" = true)
    (hdb : strIncludes (toLowerStr i.category) "database" = false)
    (hnet : strIncludes (toLowerStr i.category) "network" = false)
    (happ : strIncludes (toLowerStr i.category) "application" = false)
    (hcl : strIncludes (toLowerStr i.category) "cloud" = false)
    (hinf : strIncludes (toLowerStr i.category) "infra" = false) :
    ((generateRunbook now i sh v).sections.getD 3 defaultSection).blocks.drop 2 =
      getSecurityDiagnosisSteps i ++ hypothesisLogBlocks
    ∧ (getSecurityDiagnosisSteps i).getLast? = some (.alert_box .critical
        "SECURITY INCIDENT HANDLING: If you confirm a breach or data exfiltration — STOP. Escalate immediately to the CISO and Legal team BEFORE taking any containment action. Containment may need to be coordinated with law enforcement.")
    ∧ (getSecurityDiagnosisSteps i).dropLast.all (fun b => !(isCriticalAlert b)) = true
    ∧ ((generateRunbook now i sh v).sections.getD 4 defaultSection).blocks.drop 2 =
      getGenericContainmentSteps i := by
  have hd : diagnosisStepsForCategory i.category i = getSecurityDiagnosisSteps i := by
    simp [diagnosisStepsForCategory, hdb, hnet, happ, hcl, hinf, hsec]
  have hc : containmentStepsForCategory i.category i = getGenericContainmentSteps i := by
    simp [containmentStepsForCategory, hdb, hnet, happ, hcl, hinf]
  refine ⟨?_, rfl, rfl, ?_⟩
  · have e : ((generateRunbook now i sh v).sections.getD 3 defaultSection).blocks.drop 2 =
        diagnosisStepsForCategory i.category i ++ hypothesisLogBlocks := rfl
    rw [e, hd]
  · have e : ((generateRunbook now i sh v).sections.getD 4 defaultSection).blocks.drop 2 =
        containmentStepsForCategory i.category i := rfl
    rw [e, hc]

/-- C8 witness: the amended theorem applied at the concrete category
"Security" with no stakeholders and no vendors. -/
theorem c8_security_category_override_witness :
    ((generateRunbook "2026-02-26T12:05:00Z" incSec [] []).sections.getD 3
        defaultSection).blocks.drop 2 = getSecurityDiagnosisSteps incSec ++ hypothesisLogBlocks
    ∧ (getSecurityDiagnosisSteps incSec).getLast? = some (.alert_box .critical
        "SECURITY INCIDENT HANDLING: If you confirm a breach or data exfiltration — STOP. Escalate immediately to the CISO and Legal team BEFORE taking any containment action. Containment may need to be coordinated with law enforcement.")
    ∧ (getSecurityDiagnosisSteps incSec).dropLast.all (fun b => !(isCriticalAlert b)) = true
    ∧ ((generateRunbook "2026-02-26T12:05:00Z" incSec [] []).sections.getD 4
        defaultSection).blocks.drop 2 = getGenericContainmentSteps incSec :=
  c8_security_category_override "2026-02-26T12:05:00Z" incSec [] [] (by decide) (by decide)
    (by decide) (by decide) (by decide) (by decide)

/-- C9 counterexample: two invocations with identical (incident, stakeholders,
vendors) but different wall-clock readings return different outputs — the
`generatedAt` field records the clock, so `generateRunbook` is not a pure
function of the three inputs alone. -/
theorem c9_counterexample_generation_timestamp :
    generateRunbook "2026-01-01T00:00:00Z" inc0001 [alice, bob] [] ≠
      generateRunbook "2026-01-02T00:00:00Z" inc0001 [alice, bob] [] := by
  intro h
  have h2 := congrArg RunbookOutput.generatedAt h
  exact absurd h2 (by decide)

/-- C9 amended: `generateRunbook` is deterministic in (incident, stakeholders,
vendors) in every field except `generatedAt`: for any two clock readings, the
two outputs agree on all twelve other fields, and `generatedAt` is exactly the
clock reading of the invocation. -/
theorem c9_deterministic_except_timestamp (t1 t2 : String) (i : Incident)
    (sh : List Stakeholder) (v : List VendorEscalation) :
    (generateRunbook t1 i sh v).generatedAt = t1
    ∧ (generateRunbook t1 i sh v).incident = (generateRunbook t2 i sh v).incident
    ∧ (generateRunbook t1 i sh v).stakeholders = (generateRunbook t2 i sh v).stakeholders
    ∧ (generateRunbook t1 i sh v).vendors = (generateRunbook t2 i sh v).vendors
    ∧ (generateRunbook t1 i sh v).sections = (generateRunbook t2 i sh v).sections
    ∧ (generateRunbook t1 i sh v).emailTemplates = (generateRunbook t2 i sh v).emailTemplates
    ∧ (generateRunbook t1 i sh v).actionItems = (generateRunbook t2 i sh v).actionItems
    ∧ (generateRunbook t1 i sh v).escalationEntries = (generateRunbook t2 i sh v).escalationEntries
    ∧ (generateRunbook t1 i sh v).slackChannel = (generateRunbook t2 i sh v).slackChannel
    ∧ (generateRunbook t1 i sh v).zoomUrl = (generateRunbook t2 i sh v).zoomUrl
    ∧ (generateRunbook t1 i sh v).incidentCommander = (generateRunbook t2 i sh v).incidentCommander
    ∧ (generateRunbook t1 i sh v).technicalLead = (generateRunbook t2 i sh v).technicalLead
    ∧ (generateRunbook t1 i sh v).commsLead = (generateRunbook t2 i sh v).commsLead :=
  ⟨rfl, rfl, rfl, rfl, rfl, rfl, rfl, rfl, rfl, rfl, rfl, rfl, rfl⟩

/-- C10: for incident INC0001 the `slackChannel` field is "#incinc0001"
(prefix "#inc" plus the lowercased number with non-alphanumerics stripped),
while Section 3 step 1 embeds the channel name derived by replacing only the
first occurrence of "inc" in the lowercased number with "#inc", which yields
"#inc0001" — the two derivations disagree. -/
theorem c10_section3_slack_channel_mismatch :
    (generateRunbook "2026-02-26T12:05:00Z" inc0001 [alice, bob] []).slackChannel = "#incinc0001"
    ∧ replaceFirst (toLowerStr inc0001.number) "inc" "#inc" = "#inc0001"
    ∧ (((generateRunbook "2026-02-26T12:05:00Z" inc0001 [alice, bob] []).sections.getD 2
          defaultSection).blocks.getD 5 (.paragraph "") =
        .numbered_step 1 ("Create Slack channel: **" ++
          replaceFirst (toLowerStr inc0001.number) "inc" "#inc" ++
          "** (format: `/incident-channel " ++ inc0001.number ++ "` or create manually)"))
    ∧ (generateRunbook "2026-02-26T12:05:00Z" inc0001 [alice, bob] []).slackChannel ≠
        replaceFirst (toLowerStr inc0001.number) "inc" "#inc" :=
  ⟨rfl, rfl, rfl, by decide⟩
